import Mathlib

/-!
Verification of the OFSP_Calculator simulation engine (src/app.js).

The engine is a pure function over IEEE-754 doubles.  We embed JavaScript
numbers as `JSNum`: either an exact rational (`fin q`) or one of the
non-finite values `nan`, `inf`, `ninf`.  Arithmetic on finite values is
exact rational arithmetic (the idealization of double arithmetic used
throughout this development); the propagation rules for `NaN` and the
infinities follow IEEE-754 / JavaScript semantics.  Input parameter sets
are finite by construction (`getInputs` in app.js coerces every field with
`Number.isFinite(val) ? val : 0`), so the `Inputs` structure carries plain
rationals; non-finite values can only arise inside the engine.
-/

/-- JavaScript number: an exact finite rational, or NaN, or +Infinity, or
-Infinity. -/
inductive JSNum where
  | fin (q : ℚ)
  | nan
  | inf
  | ninf
deriving DecidableEq

namespace JSNum

/-- JavaScript addition. -/
def add : JSNum → JSNum → JSNum
  | fin a, fin b => fin (a + b)
  | nan, _ => nan
  | _, nan => nan
  | inf, ninf => nan
  | ninf, inf => nan
  | inf, _ => inf
  | _, inf => inf
  | ninf, _ => ninf
  | _, ninf => ninf

/-- JavaScript negation. -/
def neg : JSNum → JSNum
  | fin a => fin (-a)
  | nan => nan
  | inf => ninf
  | ninf => inf

/-- JavaScript subtraction. -/
def sub (a b : JSNum) : JSNum := add a (neg b)

/-- JavaScript multiplication (`0 * Infinity` is NaN). -/
def mul : JSNum → JSNum → JSNum
  | fin a, fin b => fin (a * b)
  | nan, _ => nan
  | _, nan => nan
  | inf, inf => inf
  | inf, ninf => ninf
  | ninf, inf => ninf
  | ninf, ninf => inf
  | inf, fin b => if 0 < b then inf else if b < 0 then ninf else nan
  | fin a, inf => if 0 < a then inf else if a < 0 then ninf else nan
  | ninf, fin b => if 0 < b then ninf else if b < 0 then inf else nan
  | fin a, ninf => if 0 < a then ninf else if a < 0 then inf else nan

/-- JavaScript division.  Dividing a nonzero finite value by zero yields a
signed infinity; `0 / 0` yields NaN (our model has a single zero, whose sign
is positive, matching the `+0` produced by the engine's arithmetic). -/
def div : JSNum → JSNum → JSNum
  | fin a, fin b =>
      if b = 0 then (if a = 0 then nan else if 0 < a then inf else ninf)
      else fin (a / b)
  | nan, _ => nan
  | _, nan => nan
  | inf, inf => nan
  | inf, ninf => nan
  | ninf, inf => nan
  | ninf, ninf => nan
  | inf, fin b => if 0 ≤ b then inf else ninf
  | ninf, fin b => if 0 ≤ b then ninf else inf
  | fin _, inf => fin 0
  | fin _, ninf => fin 0

/-- JavaScript `Math.min` (NaN-propagating). -/
def jmin : JSNum → JSNum → JSNum
  | nan, _ => nan
  | _, nan => nan
  | fin a, fin b => fin (min a b)
  | ninf, _ => ninf
  | _, ninf => ninf
  | inf, b => b
  | a, inf => a

/-- JavaScript `Math.floor` (identity on NaN and the infinities). -/
def jfloor : JSNum → JSNum
  | fin a => fin ((⌊a⌋ : ℤ) : ℚ)
  | nan => nan
  | inf => inf
  | ninf => ninf

/-- JavaScript comparison `x > 0`, which is false on NaN. -/
def isPos : JSNum → Bool
  | fin a => decide (0 < a)
  | nan => false
  | inf => true
  | ninf => false

/-- Whether the value is a finite number (`Number.isFinite`). -/
def isFinite : JSNum → Bool
  | fin _ => true
  | nan => false
  | inf => false
  | ninf => false

instance : Add JSNum := ⟨add⟩
instance : Sub JSNum := ⟨sub⟩
instance : Neg JSNum := ⟨neg⟩
instance : Mul JSNum := ⟨mul⟩
instance : Div JSNum := ⟨div⟩
instance : Min JSNum := ⟨jmin⟩

end JSNum

/-- JavaScript `x || d` for a finite number `x`: `0` is falsy and is
replaced by the default `d`; every other finite number is truthy. -/
def orDefault (x d : ℚ) : ℚ := if x = 0 then d else x

/-- The yield-computation mode discriminant (`inputs.yield_mode`). -/
inductive YieldMode where
  | per_hectare
  | per_plant
deriving DecidableEq

/-- The parameter set assembled by `getInputs` in app.js: every numeric
form field (already coerced to a finite number) plus the yield-mode
discriminant.  Field names match the JavaScript property names. -/
structure Inputs where
  yield_mode : YieldMode
  initial_slips : ℚ
  initial_hectares : ℚ
  hectares_gen_2 : ℚ
  hectares_gen_3 : ℚ
  slip_survival_rate : ℚ
  crop_survival_rate : ℚ
  storage_survival_rate : ℚ
  potatoes_per_plant : ℚ
  vine_cuttings_per_plant : ℚ
  replant_percent : ℚ
  slips_from_replant : ℚ
  tons_per_hectare : ℚ
  tons_harvest_percent : ℚ
  grams_per_potato : ℚ
  grams_per_ton : ℚ
  calories_per_potato_with_leaves : ℚ
  vitamin_a_per_100g : ℚ
  daily_vitamin_a_need : ℚ
  people_to_feed : ℚ
  calorie_target_per_person : ℚ
  cost_land_clearing_per_acre : ℚ
  cost_forking_per_acre : ℚ
  cost_planting_per_acre : ℚ
  cost_weeding_per_acre : ℚ
  cost_fertilizer_app_per_acre : ℚ
  cost_harvesting_per_acre : ℚ
  cost_herbicide_per_acre : ℚ
  cost_fertilizer_per_acre : ℚ
  cost_tools_per_acre : ℚ
  cost_other_per_acre : ℚ
  cost_transport_per_acre : ℚ
  cost_irrigation_per_acre : ℚ
  cost_slip_per_unit : ℚ
  acres_per_hectare : ℚ
  days_to_harvest : ℚ
  cycles_per_year : ℚ

/-- One node of the 12-node generation tree (the object literal returned
by `calcGeneration` in app.js). -/
structure GenerationResult where
  name : String
  hectares : JSNum
  slips_planted : JSNum
  potatoes_harvested : JSNum
  tons_harvested : JSNum
  days_fed : JSNum
  vitamin_a_mcg : JSNum
  vitamin_a_child_days : JSNum
  cost : JSNum

/-- Embedding of `calcGeneration` (app.js lines 205-257).  The JavaScript
defaulting `yieldFraction = yieldFraction || 1.0` is kept (`isSubGen ||
false` is the identity on booleans and is dropped). -/
def calcGeneration (name : String) (hectares slipsPlanted : JSNum) (inputs : Inputs)
    (lossFactor costPerHectareNoSlips maintenanceCostPerHectare : JSNum)
    (includeSlipCost : Bool) (isSubGen : Bool) (yieldFraction : ℚ) : GenerationResult :=
  let yieldFraction := orDefault yieldFraction 1
  let potatoesTons : JSNum × JSNum :=
    if inputs.yield_mode = YieldMode.per_hectare then
      let tonsHarvested := hectares * JSNum.fin inputs.tons_per_hectare *
        JSNum.fin inputs.tons_harvest_percent * JSNum.fin yieldFraction
      let potatoesHarvested :=
        if 0 < inputs.grams_per_potato then
          tonsHarvested * JSNum.fin inputs.grams_per_ton / JSNum.fin inputs.grams_per_potato
        else JSNum.fin 0
      (potatoesHarvested, tonsHarvested)
    else
      let potatoesHarvested := slipsPlanted * JSNum.fin inputs.potatoes_per_plant * lossFactor
      let tonsHarvested :=
        (potatoesHarvested * JSNum.fin inputs.grams_per_potato / JSNum.fin inputs.grams_per_ton) *
          JSNum.fin inputs.tons_harvest_percent
      (potatoesHarvested, tonsHarvested)
  let potatoesHarvested := potatoesTons.1
  let tonsHarvested := potatoesTons.2
  let caloriesPerTon : JSNum :=
    if 0 < inputs.grams_per_ton ∧ 0 < inputs.grams_per_potato then
      JSNum.fin ((inputs.grams_per_ton / inputs.grams_per_potato) *
        inputs.calories_per_potato_with_leaves)
    else JSNum.fin 0
  let caloriesNeededPerDay : ℚ := inputs.people_to_feed * inputs.calorie_target_per_person
  let daysFed : JSNum :=
    if 0 < caloriesNeededPerDay then
      (tonsHarvested * caloriesPerTon) / JSNum.fin caloriesNeededPerDay
    else JSNum.fin 0
  let cost : JSNum :=
    if isSubGen then
      maintenanceCostPerHectare * hectares
    else
      costPerHectareNoSlips * hectares +
        (if includeSlipCost then slipsPlanted * JSNum.fin inputs.cost_slip_per_unit
         else JSNum.fin 0)
  let vitaminAMcg : JSNum :=
    if 0 < inputs.vitamin_a_per_100g then
      tonsHarvested * JSNum.fin inputs.grams_per_ton / JSNum.fin 100 *
        JSNum.fin inputs.vitamin_a_per_100g
    else JSNum.fin 0
  let vitaminAChildDays : JSNum :=
    if 0 < inputs.daily_vitamin_a_need then vitaminAMcg / JSNum.fin inputs.daily_vitamin_a_need
    else JSNum.fin 0
  { name := name
    hectares := hectares
    slips_planted := slipsPlanted
    potatoes_harvested := potatoesHarvested
    tons_harvested := tonsHarvested
    days_fed := daysFed
    vitamin_a_mcg := vitaminAMcg
    vitamin_a_child_days := vitaminAChildDays
    cost := cost }

/-- Labor cost per acre (app.js lines 274-276): sum of the labor-category
per-acre cost parameters. -/
def laborPerAcre (I : Inputs) : ℚ :=
  I.cost_land_clearing_per_acre + I.cost_forking_per_acre + I.cost_planting_per_acre +
    I.cost_weeding_per_acre + I.cost_fertilizer_app_per_acre + I.cost_harvesting_per_acre

/-- Supplies cost per acre (app.js lines 278-280). -/
def suppliesPerAcre (I : Inputs) : ℚ :=
  I.cost_herbicide_per_acre + I.cost_fertilizer_per_acre + I.cost_tools_per_acre +
    I.cost_other_per_acre + I.cost_transport_per_acre

/-- Full-preparation cost per hectare excluding slips (app.js line 282). -/
def costPerHectareNoSlips (I : Inputs) : ℚ :=
  (laborPerAcre I + suppliesPerAcre I + I.cost_irrigation_per_acre) * I.acres_per_hectare

/-- Maintenance-only cost per acre for vine-cutting sub-generations
(app.js lines 285-286). -/
def maintenancePerAcre (I : Inputs) : ℚ :=
  I.cost_weeding_per_acre + I.cost_fertilizer_app_per_acre + I.cost_harvesting_per_acre +
    I.cost_transport_per_acre

/-- Maintenance-only cost per hectare (app.js line 287). -/
def maintenanceCostPerHectare (I : Inputs) : ℚ := maintenancePerAcre I * I.acres_per_hectare

/-- Compounded survival factor (app.js line 271). -/
def lossFactor (I : Inputs) : ℚ :=
  I.slip_survival_rate * I.crop_survival_rate * I.storage_survival_rate

/-- Declining ratoon-harvest yield fractions (app.js line 290). -/
def subGenYields : List ℚ := [0.40, 0.25, 0.15]

/-- Generation 1 (app.js line 293). -/
def gen1 (I : Inputs) : GenerationResult :=
  calcGeneration "Generation 1" (JSNum.fin I.initial_hectares) (JSNum.fin I.initial_slips) I
    (JSNum.fin (lossFactor I)) (JSNum.fin (costPerHectareNoSlips I))
    (JSNum.fin (maintenanceCostPerHectare I)) true false 1

/-- Vine-cutting slip count shared by Gen 1a/1b/1c (app.js lines 297-299). -/
def vineCuttingSlips (I : Inputs) : JSNum :=
  if (gen1 I).potatoes_harvested.isPos then
    ((gen1 I).slips_planted * JSNum.fin I.crop_survival_rate) * JSNum.fin I.vine_cuttings_per_plant
  else JSNum.fin 0

/-- Gen 1a (app.js line 300). -/
def gen1a (I : Inputs) : GenerationResult :=
  calcGeneration "Gen 1a (vine)" (gen1 I).hectares (vineCuttingSlips I) I
    (JSNum.fin (lossFactor I)) (JSNum.fin (costPerHectareNoSlips I))
    (JSNum.fin (maintenanceCostPerHectare I)) false true (subGenYields.getD 0 0)

/-- Gen 1b (app.js line 301). -/
def gen1b (I : Inputs) : GenerationResult :=
  calcGeneration "Gen 1b (vine)" (gen1 I).hectares (vineCuttingSlips I) I
    (JSNum.fin (lossFactor I)) (JSNum.fin (costPerHectareNoSlips I))
    (JSNum.fin (maintenanceCostPerHectare I)) false true (subGenYields.getD 1 0)

/-- Gen 1c (app.js line 302). -/
def gen1c (I : Inputs) : GenerationResult :=
  calcGeneration "Gen 1c (vine)" (gen1 I).hectares (vineCuttingSlips I) I
    (JSNum.fin (lossFactor I)) (JSNum.fin (costPerHectareNoSlips I))
    (JSNum.fin (maintenanceCostPerHectare I)) false true (subGenYields.getD 2 0)

/-- Slips replanted into Generation 2 (app.js line 305). -/
def gen2SlipsPlanted (I : Inputs) : JSNum :=
  (gen1 I).potatoes_harvested * JSNum.fin I.replant_percent * JSNum.fin I.slips_from_replant

/-- Generation 2 (app.js line 306). -/
def gen2 (I : Inputs) : GenerationResult :=
  calcGeneration "Generation 2" (JSNum.fin I.hectares_gen_2) (gen2SlipsPlanted I) I
    (JSNum.fin (lossFactor I)) (JSNum.fin (costPerHectareNoSlips I))
    (JSNum.fin (maintenanceCostPerHectare I)) false false 1

/-- Vine-cutting slip count shared by Gen 2a/2b/2c (app.js lines 308-310). -/
def vineCuttingSlips2 (I : Inputs) : JSNum :=
  if (gen2 I).potatoes_harvested.isPos then
    ((gen2 I).slips_planted * JSNum.fin I.crop_survival_rate) * JSNum.fin I.vine_cuttings_per_plant
  else JSNum.fin 0

/-- Gen 2a (app.js line 311). -/
def gen2a (I : Inputs) : GenerationResult :=
  calcGeneration "Gen 2a (vine)" (gen2 I).hectares (vineCuttingSlips2 I) I
    (JSNum.fin (lossFactor I)) (JSNum.fin (costPerHectareNoSlips I))
    (JSNum.fin (maintenanceCostPerHectare I)) false true (subGenYields.getD 0 0)

/-- Gen 2b (app.js line 312). -/
def gen2b (I : Inputs) : GenerationResult :=
  calcGeneration "Gen 2b (vine)" (gen2 I).hectares (vineCuttingSlips2 I) I
    (JSNum.fin (lossFactor I)) (JSNum.fin (costPerHectareNoSlips I))
    (JSNum.fin (maintenanceCostPerHectare I)) false true (subGenYields.getD 1 0)

/-- Gen 2c (app.js line 313). -/
def gen2c (I : Inputs) : GenerationResult :=
  calcGeneration "Gen 2c (vine)" (gen2 I).hectares (vineCuttingSlips2 I) I
    (JSNum.fin (lossFactor I)) (JSNum.fin (costPerHectareNoSlips I))
    (JSNum.fin (maintenanceCostPerHectare I)) false true (subGenYields.getD 2 0)

/-- Slips replanted into Generation 3 (app.js line 316). -/
def gen3SlipsPlanted (I : Inputs) : JSNum :=
  (gen2 I).potatoes_harvested * JSNum.fin I.replant_percent * JSNum.fin I.slips_from_replant

/-- Generation 3 (app.js line 317). -/
def gen3 (I : Inputs) : GenerationResult :=
  calcGeneration "Generation 3" (JSNum.fin I.hectares_gen_3) (gen3SlipsPlanted I) I
    (JSNum.fin (lossFactor I)) (JSNum.fin (costPerHectareNoSlips I))
    (JSNum.fin (maintenanceCostPerHectare I)) false false 1

/-- Vine-cutting slip count shared by Gen 3a/3b/3c (app.js lines 319-321). -/
def vineCuttingSlips3 (I : Inputs) : JSNum :=
  if (gen3 I).potatoes_harvested.isPos then
    ((gen3 I).slips_planted * JSNum.fin I.crop_survival_rate) * JSNum.fin I.vine_cuttings_per_plant
  else JSNum.fin 0

/-- Gen 3a (app.js line 322). -/
def gen3a (I : Inputs) : GenerationResult :=
  calcGeneration "Gen 3a (vine)" (gen3 I).hectares (vineCuttingSlips3 I) I
    (JSNum.fin (lossFactor I)) (JSNum.fin (costPerHectareNoSlips I))
    (JSNum.fin (maintenanceCostPerHectare I)) false true (subGenYields.getD 0 0)

/-- Gen 3b (app.js line 323). -/
def gen3b (I : Inputs) : GenerationResult :=
  calcGeneration "Gen 3b (vine)" (gen3 I).hectares (vineCuttingSlips3 I) I
    (JSNum.fin (lossFactor I)) (JSNum.fin (costPerHectareNoSlips I))
    (JSNum.fin (maintenanceCostPerHectare I)) false true (subGenYields.getD 1 0)

/-- Gen 3c (app.js line 324). -/
def gen3c (I : Inputs) : GenerationResult :=
  calcGeneration "Gen 3c (vine)" (gen3 I).hectares (vineCuttingSlips3 I) I
    (JSNum.fin (lossFactor I)) (JSNum.fin (costPerHectareNoSlips I))
    (JSNum.fin (maintenanceCostPerHectare I)) false true (subGenYields.getD 2 0)

/-- The fixed 12-node list (app.js lines 326-330). -/
def allGens (I : Inputs) : List GenerationResult :=
  [gen1 I, gen1a I, gen1b I, gen1c I,
   gen2 I, gen2a I, gen2b I, gen2c I,
   gen3 I, gen3a I, gen3b I, gen3c I]

/-- Total days fed (app.js line 332, `reduce` with initial value 0). -/
def totalDaysFed (I : Inputs) : JSNum :=
  (allGens I).foldl (fun s g => s + g.days_fed) (JSNum.fin 0)

/-- Total cost (app.js line 333). -/
def totalCost (I : Inputs) : JSNum :=
  (allGens I).foldl (fun s g => s + g.cost) (JSNum.fin 0)

/-- Total tons (app.js line 334). -/
def totalTons (I : Inputs) : JSNum :=
  (allGens I).foldl (fun s g => s + g.tons_harvested) (JSNum.fin 0)

/-- Cost per person over the full period (app.js line 335). -/
def costPerPersonFullPeriod (I : Inputs) : JSNum :=
  if 0 < I.people_to_feed then totalCost I / JSNum.fin I.people_to_feed else JSNum.fin 0

/-- Cost per person per day (app.js lines 336-338). -/
def costPerPersonPerDay (I : Inputs) : JSNum :=
  if (totalDaysFed I).isPos ∧ 0 < I.people_to_feed then
    totalCost I / (totalDaysFed I * JSNum.fin I.people_to_feed)
  else JSNum.fin 0

/-- Total Vitamin-A child-days (app.js line 340). -/
def totalVitaminAChildDays (I : Inputs) : JSNum :=
  (allGens I).foldl (fun s g => s + g.vitamin_a_child_days) (JSNum.fin 0)

/-- Children whose annual Vitamin-A need is met (app.js line 341). -/
def childrenAnnualVaMet (I : Inputs) : JSNum :=
  if (totalVitaminAChildDays I).isPos then
    JSNum.jfloor (totalVitaminAChildDays I / JSNum.fin 365)
  else JSNum.fin 0

/-- Effective cycles per year, `inputs.cycles_per_year || 1` (app.js line 346). -/
def cyclesPerYearEff (I : Inputs) : ℚ := orDefault I.cycles_per_year 1

/-- Effective days per cycle, `inputs.days_to_harvest || 120` (app.js line 347). -/
def daysPerCycle (I : Inputs) : ℚ := orDefault I.days_to_harvest 120

/-- Chain duration in days (app.js line 349). -/
def totalChainDays (I : Inputs) : ℚ := 3 * daysPerCycle I

/-- Annual scale factor (app.js line 350). -/
def annualScaleFactor (I : Inputs) : JSNum :=
  min (JSNum.fin 365 / JSNum.fin (totalChainDays I)) (JSNum.fin (cyclesPerYearEff I))

/-- The value returned by `calculateSimulation` (app.js lines 355-369). -/
structure SimulationResult where
  all_gens : List GenerationResult
  total_days_fed : JSNum
  total_cost : JSNum
  total_tons : JSNum
  cost_per_person_full_period : JSNum
  cost_per_person_per_day : JSNum
  total_vitamin_a_child_days : JSNum
  children_annual_va_met : JSNum
  cycles_per_year : ℚ
  annual_scale_factor : JSNum
  annual_tons : JSNum
  annual_days_fed : JSNum
  annual_cost : JSNum

/-- Embedding of `calculateSimulation` (app.js lines 270-370), assembled
from the per-node and aggregate definitions above, which mirror the
function body's local constants one for one. -/
def calculateSimulation (I : Inputs) : SimulationResult :=
  { all_gens := allGens I
    total_days_fed := totalDaysFed I
    total_cost := totalCost I
    total_tons := totalTons I
    cost_per_person_full_period := costPerPersonFullPeriod I
    cost_per_person_per_day := costPerPersonPerDay I
    total_vitamin_a_child_days := totalVitaminAChildDays I
    children_annual_va_met := childrenAnnualVaMet I
    cycles_per_year := cyclesPerYearEff I
    annual_scale_factor := annualScaleFactor I
    annual_tons := totalTons I * annualScaleFactor I
    annual_days_fed := totalDaysFed I * annualScaleFactor I
    annual_cost := totalCost I * annualScaleFactor I }
/-- Identifier of one numeric field of the parameter object (a JavaScript
property name for which `baseInputs[inputId]` is a defined number). -/
inductive ParamId where
  | initial_slips
  | initial_hectares
  | hectares_gen_2
  | hectares_gen_3
  | slip_survival_rate
  | crop_survival_rate
  | storage_survival_rate
  | potatoes_per_plant
  | vine_cuttings_per_plant
  | replant_percent
  | slips_from_replant
  | tons_per_hectare
  | tons_harvest_percent
  | grams_per_potato
  | grams_per_ton
  | calories_per_potato_with_leaves
  | vitamin_a_per_100g
  | daily_vitamin_a_need
  | people_to_feed
  | calorie_target_per_person
  | cost_land_clearing_per_acre
  | cost_forking_per_acre
  | cost_planting_per_acre
  | cost_weeding_per_acre
  | cost_fertilizer_app_per_acre
  | cost_harvesting_per_acre
  | cost_herbicide_per_acre
  | cost_fertilizer_per_acre
  | cost_tools_per_acre
  | cost_other_per_acre
  | cost_transport_per_acre
  | cost_irrigation_per_acre
  | cost_slip_per_unit
  | acres_per_hectare
  | days_to_harvest
  | cycles_per_year
deriving DecidableEq

/-- Reading the numeric property named by a `ParamId` (`baseInputs[inputId]`). -/
def getP (p : ParamId) (I : Inputs) : ℚ :=
  match p with
  | .initial_slips => I.initial_slips
  | .initial_hectares => I.initial_hectares
  | .hectares_gen_2 => I.hectares_gen_2
  | .hectares_gen_3 => I.hectares_gen_3
  | .slip_survival_rate => I.slip_survival_rate
  | .crop_survival_rate => I.crop_survival_rate
  | .storage_survival_rate => I.storage_survival_rate
  | .potatoes_per_plant => I.potatoes_per_plant
  | .vine_cuttings_per_plant => I.vine_cuttings_per_plant
  | .replant_percent => I.replant_percent
  | .slips_from_replant => I.slips_from_replant
  | .tons_per_hectare => I.tons_per_hectare
  | .tons_harvest_percent => I.tons_harvest_percent
  | .grams_per_potato => I.grams_per_potato
  | .grams_per_ton => I.grams_per_ton
  | .calories_per_potato_with_leaves => I.calories_per_potato_with_leaves
  | .vitamin_a_per_100g => I.vitamin_a_per_100g
  | .daily_vitamin_a_need => I.daily_vitamin_a_need
  | .people_to_feed => I.people_to_feed
  | .calorie_target_per_person => I.calorie_target_per_person
  | .cost_land_clearing_per_acre => I.cost_land_clearing_per_acre
  | .cost_forking_per_acre => I.cost_forking_per_acre
  | .cost_planting_per_acre => I.cost_planting_per_acre
  | .cost_weeding_per_acre => I.cost_weeding_per_acre
  | .cost_fertilizer_app_per_acre => I.cost_fertilizer_app_per_acre
  | .cost_harvesting_per_acre => I.cost_harvesting_per_acre
  | .cost_herbicide_per_acre => I.cost_herbicide_per_acre
  | .cost_fertilizer_per_acre => I.cost_fertilizer_per_acre
  | .cost_tools_per_acre => I.cost_tools_per_acre
  | .cost_other_per_acre => I.cost_other_per_acre
  | .cost_transport_per_acre => I.cost_transport_per_acre
  | .cost_irrigation_per_acre => I.cost_irrigation_per_acre
  | .cost_slip_per_unit => I.cost_slip_per_unit
  | .acres_per_hectare => I.acres_per_hectare
  | .days_to_harvest => I.days_to_harvest
  | .cycles_per_year => I.cycles_per_year

/-- Writing the numeric property named by a `ParamId`
(`modifiedInputs[inputId] = v` on a shallow copy). -/
def setP (p : ParamId) (v : ℚ) (I : Inputs) : Inputs :=
  match p with
  | .initial_slips => { I with initial_slips := v }
  | .initial_hectares => { I with initial_hectares := v }
  | .hectares_gen_2 => { I with hectares_gen_2 := v }
  | .hectares_gen_3 => { I with hectares_gen_3 := v }
  | .slip_survival_rate => { I with slip_survival_rate := v }
  | .crop_survival_rate => { I with crop_survival_rate := v }
  | .storage_survival_rate => { I with storage_survival_rate := v }
  | .potatoes_per_plant => { I with potatoes_per_plant := v }
  | .vine_cuttings_per_plant => { I with vine_cuttings_per_plant := v }
  | .replant_percent => { I with replant_percent := v }
  | .slips_from_replant => { I with slips_from_replant := v }
  | .tons_per_hectare => { I with tons_per_hectare := v }
  | .tons_harvest_percent => { I with tons_harvest_percent := v }
  | .grams_per_potato => { I with grams_per_potato := v }
  | .grams_per_ton => { I with grams_per_ton := v }
  | .calories_per_potato_with_leaves => { I with calories_per_potato_with_leaves := v }
  | .vitamin_a_per_100g => { I with vitamin_a_per_100g := v }
  | .daily_vitamin_a_need => { I with daily_vitamin_a_need := v }
  | .people_to_feed => { I with people_to_feed := v }
  | .calorie_target_per_person => { I with calorie_target_per_person := v }
  | .cost_land_clearing_per_acre => { I with cost_land_clearing_per_acre := v }
  | .cost_forking_per_acre => { I with cost_forking_per_acre := v }
  | .cost_planting_per_acre => { I with cost_planting_per_acre := v }
  | .cost_weeding_per_acre => { I with cost_weeding_per_acre := v }
  | .cost_fertilizer_app_per_acre => { I with cost_fertilizer_app_per_acre := v }
  | .cost_harvesting_per_acre => { I with cost_harvesting_per_acre := v }
  | .cost_herbicide_per_acre => { I with cost_herbicide_per_acre := v }
  | .cost_fertilizer_per_acre => { I with cost_fertilizer_per_acre := v }
  | .cost_tools_per_acre => { I with cost_tools_per_acre := v }
  | .cost_other_per_acre => { I with cost_other_per_acre := v }
  | .cost_transport_per_acre => { I with cost_transport_per_acre := v }
  | .cost_irrigation_per_acre => { I with cost_irrigation_per_acre := v }
  | .cost_slip_per_unit => { I with cost_slip_per_unit := v }
  | .acres_per_hectare => { I with acres_per_hectare := v }
  | .days_to_harvest => { I with days_to_harvest := v }
  | .cycles_per_year => { I with cycles_per_year := v }

/-- Which strings name a numeric property of the parameter object: the
model of the JavaScript membership test `!inputId || baseInputs[inputId] ===
undefined` (the empty string and unknown keys have no `ParamId`). -/
def findParamId (s : String) : Option ParamId :=
  match s with
  | "initial_slips" => some ParamId.initial_slips
  | "initial_hectares" => some ParamId.initial_hectares
  | "hectares_gen_2" => some ParamId.hectares_gen_2
  | "hectares_gen_3" => some ParamId.hectares_gen_3
  | "slip_survival_rate" => some ParamId.slip_survival_rate
  | "crop_survival_rate" => some ParamId.crop_survival_rate
  | "storage_survival_rate" => some ParamId.storage_survival_rate
  | "potatoes_per_plant" => some ParamId.potatoes_per_plant
  | "vine_cuttings_per_plant" => some ParamId.vine_cuttings_per_plant
  | "replant_percent" => some ParamId.replant_percent
  | "slips_from_replant" => some ParamId.slips_from_replant
  | "tons_per_hectare" => some ParamId.tons_per_hectare
  | "tons_harvest_percent" => some ParamId.tons_harvest_percent
  | "grams_per_potato" => some ParamId.grams_per_potato
  | "grams_per_ton" => some ParamId.grams_per_ton
  | "calories_per_potato_with_leaves" => some ParamId.calories_per_potato_with_leaves
  | "vitamin_a_per_100g" => some ParamId.vitamin_a_per_100g
  | "daily_vitamin_a_need" => some ParamId.daily_vitamin_a_need
  | "people_to_feed" => some ParamId.people_to_feed
  | "calorie_target_per_person" => some ParamId.calorie_target_per_person
  | "cost_land_clearing_per_acre" => some ParamId.cost_land_clearing_per_acre
  | "cost_forking_per_acre" => some ParamId.cost_forking_per_acre
  | "cost_planting_per_acre" => some ParamId.cost_planting_per_acre
  | "cost_weeding_per_acre" => some ParamId.cost_weeding_per_acre
  | "cost_fertilizer_app_per_acre" => some ParamId.cost_fertilizer_app_per_acre
  | "cost_harvesting_per_acre" => some ParamId.cost_harvesting_per_acre
  | "cost_herbicide_per_acre" => some ParamId.cost_herbicide_per_acre
  | "cost_fertilizer_per_acre" => some ParamId.cost_fertilizer_per_acre
  | "cost_tools_per_acre" => some ParamId.cost_tools_per_acre
  | "cost_other_per_acre" => some ParamId.cost_other_per_acre
  | "cost_transport_per_acre" => some ParamId.cost_transport_per_acre
  | "cost_irrigation_per_acre" => some ParamId.cost_irrigation_per_acre
  | "cost_slip_per_unit" => some ParamId.cost_slip_per_unit
  | "acres_per_hectare" => some ParamId.acres_per_hectare
  | "days_to_harvest" => some ParamId.days_to_harvest
  | "cycles_per_year" => some ParamId.cycles_per_year
  | _ => none

/-- One row of the sensitivity mini-table (app.js lines 568-581): the
scaling factor, the scaled input value, the two totals from re-running the
engine, and their signed deltas from the baseline run. -/
structure SensitivityRow where
  factor : ℚ
  inputValue : ℚ
  total_days_fed : JSNum
  total_cost : JSNum
  daysDelta : JSNum
  costDelta : JSNum

/-- The five perturbation factors (app.js lines 550-556). -/
def sensitivitySteps : List ℚ := [0.75, 0.90, 1.00, 1.10, 1.25]

/-- Embedding of the computational core of `runSensitivityAnalysis`
(app.js lines 542-581): the guard `!inputId || baseInputs[inputId] ===
undefined` becomes the `findParamId` lookup, and each step re-runs
`calculateSimulation` on a copy of the parameters with the one selected
property scaled.  Rendering of the rows to HTML is outside the model. -/
def runSensitivityAnalysis (inputId : String) (baseInputs : Inputs) :
    Option (List SensitivityRow) :=
  match findParamId inputId with
  | none => none
  | some p =>
    let baseValue := getP p baseInputs
    let baseResults := calculateSimulation baseInputs
    some (sensitivitySteps.map (fun factor =>
      let modifiedInputs := setP p (baseValue * factor) baseInputs
      let results := calculateSimulation modifiedInputs
      { factor := factor
        inputValue := getP p modifiedInputs
        total_days_fed := results.total_days_fed
        total_cost := results.total_cost
        daysDelta := results.total_days_fed - baseResults.total_days_fed
        costDelta := results.total_cost - baseResults.total_cost }))

/-- Placeholder row used only as the default of `List.getD`. -/
def noRow : SensitivityRow :=
  { factor := 0, inputValue := 0, total_days_fed := JSNum.fin 0,
    total_cost := JSNum.fin 0, daysDelta := JSNum.fin 0, costDelta := JSNum.fin 0 }

/-- Every numeric field of a generation node is a finite number. -/
def GenerationResult.allFinite (g : GenerationResult) : Bool :=
  g.hectares.isFinite && g.slips_planted.isFinite && g.potatoes_harvested.isFinite &&
    g.tons_harvested.isFinite && g.days_fed.isFinite && g.vitamin_a_mcg.isFinite &&
    g.vitamin_a_child_days.isFinite && g.cost.isFinite

/-- Every numeric output of a simulation run is a finite number (all node
fields and all aggregate scalars). -/
def SimulationResult.allFinite (r : SimulationResult) : Bool :=
  r.all_gens.all GenerationResult.allFinite && r.total_days_fed.isFinite &&
    r.total_cost.isFinite && r.total_tons.isFinite &&
    r.cost_per_person_full_period.isFinite && r.cost_per_person_per_day.isFinite &&
    r.total_vitamin_a_child_days.isFinite && r.children_annual_va_met.isFinite &&
    r.annual_scale_factor.isFinite && r.annual_tons.isFinite &&
    r.annual_days_fed.isFinite && r.annual_cost.isFinite

/-- A small all-positive per-hectare parameter set, used as a base point
for concrete evaluations. -/
def simpleParams : Inputs :=
  { yield_mode := YieldMode.per_hectare
    initial_slips := 100
    initial_hectares := 2
    hectares_gen_2 := 3
    hectares_gen_3 := 4
    slip_survival_rate := 1
    crop_survival_rate := 1
    storage_survival_rate := 1
    potatoes_per_plant := 2
    vine_cuttings_per_plant := 3
    replant_percent := 1
    slips_from_replant := 2
    tons_per_hectare := 5
    tons_harvest_percent := 1
    grams_per_potato := 100
    grams_per_ton := 1000
    calories_per_potato_with_leaves := 10
    vitamin_a_per_100g := 100
    daily_vitamin_a_need := 4
    people_to_feed := 10
    calorie_target_per_person := 100
    cost_land_clearing_per_acre := 1
    cost_forking_per_acre := 1
    cost_planting_per_acre := 1
    cost_weeding_per_acre := 1
    cost_fertilizer_app_per_acre := 1
    cost_harvesting_per_acre := 1
    cost_herbicide_per_acre := 1
    cost_fertilizer_per_acre := 1
    cost_tools_per_acre := 1
    cost_other_per_acre := 1
    cost_transport_per_acre := 1
    cost_irrigation_per_acre := 1
    cost_slip_per_unit := 1
    acres_per_hectare := 2
    days_to_harvest := 120
    cycles_per_year := 2 }

/-- Per-plant parameter set with mass-per-ton equal to zero: the input that
exercises the unguarded division in the per-plant branch. -/
def cexC1inputs : Inputs :=
  { simpleParams with yield_mode := YieldMode.per_plant, grams_per_ton := 0 }

/-- Per-plant parameter set (all conversions positive). -/
def cexC3inputs : Inputs :=
  { simpleParams with yield_mode := YieldMode.per_plant }

/-- Per-hectare parameter set with tons-per-hectare zero: Generation 1
harvests nothing although its planted slips, the crop survival rate and the
vine-cuttings-per-plant parameter are all positive. -/
def cexC5inputs : Inputs :=
  { simpleParams with tons_per_hectare := 0 }

/-- Parameter set with cycles-per-year equal to zero. -/
def cexC6inputs : Inputs :=
  { simpleParams with cycles_per_year := 0 }

/-- Per-plant parameter set with mass-per-ton zero, whose totals are NaN. -/
def cexC8inputs : Inputs :=
  { simpleParams with yield_mode := YieldMode.per_plant, grams_per_ton := 0 }

/-- Per-plant parameter set with mass-per-ton zero, used in the witness of
the amended claim C1. -/
def wC1inputs : Inputs :=
  { simpleParams with yield_mode := YieldMode.per_plant, grams_per_ton := 0 }

/-- Scenario A of the specification: 34.3 hectares, 1,200,000 initial
slips, 10 tons/ha, 90% harvest efficiency, per-hectare mode. -/
def wC7inputs : Inputs :=
  { simpleParams with
      initial_hectares := 34.3
      initial_slips := 1200000
      tons_per_hectare := 10
      tons_harvest_percent := 0.9 }

/-- Per-hectare parameter set with a zero harvest, used in the witness of
claim C10 (parent slips, survival and cuttings-per-plant all positive). -/
def wC10inputs : Inputs :=
  { simpleParams with tons_per_hectare := 0 }

namespace JSNum

@[simp] lemma fin_add_fin (a b : ℚ) : fin a + fin b = fin (a + b) := rfl

@[simp] lemma fin_mul_fin (a b : ℚ) : fin a * fin b = fin (a * b) := rfl

@[simp] lemma fin_sub_fin (a b : ℚ) : fin a - fin b = fin (a - b) := by
  show add (fin a) (neg (fin b)) = fin (a - b)
  simp [add, neg, sub_eq_add_neg]

lemma fin_div_fin (a b : ℚ) (hb : b ≠ 0) : fin a / fin b = fin (a / b) := by
  show div (fin a) (fin b) = fin (a / b)
  simp [div, hb]

lemma fin_div_fin_eq (a b : ℚ) :
    fin a / fin b =
      if b = 0 then (if a = 0 then nan else if 0 < a then inf else ninf)
      else fin (a / b) := rfl

@[simp] lemma fin_min_fin (a b : ℚ) : min (fin a) (fin b) = fin (min a b) := rfl

@[simp] lemma isPos_fin (a : ℚ) : (fin a).isPos = decide (0 < a) := rfl

@[simp] lemma isFinite_fin (a : ℚ) : (fin a).isFinite = true := rfl

@[simp] lemma isFinite_nan : nan.isFinite = false := rfl

@[simp] lemma isFinite_inf : inf.isFinite = false := rfl

@[simp] lemma isFinite_ninf : ninf.isFinite = false := rfl

lemma isFinite_iff (x : JSNum) : x.isFinite = true ↔ ∃ q : ℚ, x = fin q := by
  cases x <;> simp [isFinite]

@[simp] lemma jfloor_fin (a : ℚ) : jfloor (fin a) = fin ((⌊a⌋ : ℤ) : ℚ) := rfl

@[simp] lemma nan_mul (x : JSNum) : nan * x = nan := by
  show mul nan x = nan
  cases x <;> rfl

@[simp] lemma mul_nan (x : JSNum) : x * nan = nan := by
  show mul x nan = nan
  cases x <;> rfl

/-- A finite value divided by zero, then multiplied by a finite value, is
never finite (it is NaN or a signed infinity). -/
lemma divZero_mul_fin_not_finite (a t : ℚ) :
    ((fin a / fin 0) * fin t).isFinite = false := by
  show (mul (div (fin a) (fin 0)) (fin t)).isFinite = false
  simp only [div, if_pos rfl]
  split_ifs <;> simp [mul] <;> split_ifs <;> rfl

end JSNum

lemma orDefault_of_ne (x d : ℚ) (h : x ≠ 0) : orDefault x d = x := by
  simp [orDefault, h]

lemma orDefault_ne_zero (x d : ℚ) (hd : d ≠ 0) : orDefault x d ≠ 0 := by
  unfold orDefault
  split_ifs with h
  · exact hd
  · exact h

lemma calcGeneration_name (n : String) (h s : JSNum) (I : Inputs) (lf c m : JSNum)
    (inc sub : Bool) (yf : ℚ) :
    (calcGeneration n h s I lf c m inc sub yf).name = n := rfl

lemma calcGeneration_hectares (n : String) (h s : JSNum) (I : Inputs) (lf c m : JSNum)
    (inc sub : Bool) (yf : ℚ) :
    (calcGeneration n h s I lf c m inc sub yf).hectares = h := rfl

lemma calcGeneration_slips (n : String) (h s : JSNum) (I : Inputs) (lf c m : JSNum)
    (inc sub : Bool) (yf : ℚ) :
    (calcGeneration n h s I lf c m inc sub yf).slips_planted = s := rfl

lemma calcGeneration_potatoes_fin (n : String) (h lf c m : ℚ) (s : JSNum) (I : Inputs)
    (hs : ∃ qs : ℚ, s = JSNum.fin qs) (inc sub : Bool) (yf : ℚ) :
    ∃ q : ℚ, (calcGeneration n (JSNum.fin h) s I (JSNum.fin lf) (JSNum.fin c)
      (JSNum.fin m) inc sub yf).potatoes_harvested = JSNum.fin q := by
  obtain ⟨qs, rfl⟩ := hs
  cases hm : I.yield_mode with
  | per_hectare =>
    by_cases hg : 0 < I.grams_per_potato
    · exact ⟨h * I.tons_per_hectare * I.tons_harvest_percent * orDefault yf 1 *
        I.grams_per_ton / I.grams_per_potato,
        by simp [calcGeneration, hm, hg, JSNum.fin_div_fin _ _ hg.ne']⟩
    · exact ⟨0, by simp [calcGeneration, hm, hg]⟩
  | per_plant =>
    exact ⟨qs * I.potatoes_per_plant * lf, by simp [calcGeneration, hm]⟩

lemma calcGeneration_tons_fin (n : String) (h lf c m : ℚ) (s : JSNum) (I : Inputs)
    (hs : ∃ qs : ℚ, s = JSNum.fin qs) (inc sub : Bool) (yf : ℚ)
    (hc : I.yield_mode = YieldMode.per_hectare ∨ I.grams_per_ton ≠ 0) :
    ∃ q : ℚ, (calcGeneration n (JSNum.fin h) s I (JSNum.fin lf) (JSNum.fin c)
      (JSNum.fin m) inc sub yf).tons_harvested = JSNum.fin q := by
  obtain ⟨qs, rfl⟩ := hs
  cases hm : I.yield_mode with
  | per_hectare =>
    exact ⟨h * I.tons_per_hectare * I.tons_harvest_percent * orDefault yf 1,
      by simp [calcGeneration, hm]⟩
  | per_plant =>
    have hg : I.grams_per_ton ≠ 0 := by
      rcases hc with h1 | h1
    
      · rw [hm] at h1; exact absurd h1 (by simp)
      · exact h1
    exact ⟨qs * I.potatoes_per_plant * lf * I.grams_per_potato / I.grams_per_ton *
      I.tons_harvest_percent, by simp [calcGeneration, hm, JSNum.fin_div_fin _ _ hg]⟩

lemma calcGeneration_cost_fin (n : String) (h lf c m : ℚ) (s : JSNum) (I : Inputs)
    (hs : ∃ qs : ℚ, s = JSNum.fin qs) (inc sub : Bool) (yf : ℚ) :
    ∃ q : ℚ, (calcGeneration n (JSNum.fin h) s I (JSNum.fin lf) (JSNum.fin c)
      (JSNum.fin m) inc sub yf).cost = JSNum.fin q := by
  obtain ⟨qs, rfl⟩ := hs
  cases sub with
  | true => exact ⟨m * h, by simp [calcGeneration]⟩
  | false =>
    cases inc with
    | true => exact ⟨c * h + qs * I.cost_slip_per_unit, by simp [calcGeneration]⟩
    | false => exact ⟨c * h + 0, by simp [calcGeneration]⟩

lemma calcGeneration_nutrition_fin (n : String) (h lf c m : ℚ) (s : JSNum) (I : Inputs)
    (hs : ∃ qs : ℚ, s = JSNum.fin qs) (inc sub : Bool) (yf : ℚ)
    (hc : I.yield_mode = YieldMode.per_hectare ∨ I.grams_per_ton ≠ 0) :
    (∃ q : ℚ, (calcGeneration n (JSNum.fin h) s I (JSNum.fin lf) (JSNum.fin c)
      (JSNum.fin m) inc sub yf).days_fed = JSNum.fin q) ∧
    (∃ q : ℚ, (calcGeneration n (JSNum.fin h) s I (JSNum.fin lf) (JSNum.fin c)
      (JSNum.fin m) inc sub yf).vitamin_a_mcg = JSNum.fin q) ∧
    (∃ q : ℚ, (calcGeneration n (JSNum.fin h) s I (JSNum.fin lf) (JSNum.fin c)
      (JSNum.fin m) inc sub yf).vitamin_a_child_days = JSNum.fin q) := by
  obtain ⟨T, hT⟩ := calcGeneration_tons_fin n h lf c m s I hs inc sub yf hc
  obtain ⟨qs0, rfl⟩ := hs
  simp only [calcGeneration] at hT ⊢
  rw [hT]
  refine ⟨?_, ?_, ?_⟩
  · by_cases hcn : 0 < I.people_to_feed * I.calorie_target_per_person
    · by_cases hg : 0 < I.grams_per_ton ∧ 0 < I.grams_per_potato
      · exact ⟨_, by rw [if_pos hcn, if_pos hg, JSNum.fin_mul_fin,
          JSNum.fin_div_fin _ _ hcn.ne']⟩
      · exact ⟨_, by rw [if_pos hcn, if_neg hg, JSNum.fin_mul_fin,
          JSNum.fin_div_fin _ _ hcn.ne']⟩
    · exact ⟨0, by rw [if_neg hcn]⟩
  · by_cases hva : 0 < I.vitamin_a_per_100g
    · exact ⟨_, by rw [if_pos hva, JSNum.fin_mul_fin,
        JSNum.fin_div_fin _ _ (by norm_num : (100 : ℚ) ≠ 0), JSNum.fin_mul_fin]⟩
    · exact ⟨0, by rw [if_neg hva]⟩
  · by_cases hnd : 0 < I.daily_vitamin_a_need
    · by_cases hva : 0 < I.vitamin_a_per_100g
      · exact ⟨_, by rw [if_pos hnd, if_pos hva, JSNum.fin_mul_fin,
          JSNum.fin_div_fin _ _ (by norm_num : (100 : ℚ) ≠ 0), JSNum.fin_mul_fin,
          JSNum.fin_div_fin _ _ hnd.ne']⟩
      · exact ⟨_, by rw [if_pos hnd, if_neg hva, JSNum.fin_div_fin _ _ hnd.ne']⟩
    · exact ⟨0, by rw [if_neg hnd]⟩

/-- Under finite slip input (and the guard on the per-plant mass
conversion), a generation node consists entirely of finite numbers, and
its name, hectares and slips fields are the arguments themselves. -/
lemma calcGeneration_record (n : String) (h lf c m : ℚ) (s : JSNum) (I : Inputs)
    (hs : ∃ qs : ℚ, s = JSNum.fin qs) (inc sub : Bool) (yf : ℚ)
    (hc : I.yield_mode = YieldMode.per_hectare ∨ I.grams_per_ton ≠ 0) :
    ∃ qs qp qt qd qm qv qc : ℚ,
      calcGeneration n (JSNum.fin h) s I (JSNum.fin lf) (JSNum.fin c) (JSNum.fin m)
          inc sub yf =
        { name := n, hectares := JSNum.fin h, slips_planted := JSNum.fin qs,
          potatoes_harvested := JSNum.fin qp, tons_harvested := JSNum.fin qt,
          days_fed := JSNum.fin qd, vitamin_a_mcg := JSNum.fin qm,
          vitamin_a_child_days := JSNum.fin qv, cost := JSNum.fin qc } := by
  obtain ⟨qp, hp⟩ := calcGeneration_potatoes_fin n h lf c m s I hs inc sub yf
  obtain ⟨qt, ht⟩ := calcGeneration_tons_fin n h lf c m s I hs inc sub yf hc
  obtain ⟨⟨qd, hd⟩, ⟨qm, hm⟩, ⟨qv, hv⟩⟩ :=
    calcGeneration_nutrition_fin n h lf c m s I hs inc sub yf hc
  obtain ⟨qc, hcost⟩ := calcGeneration_cost_fin n h lf c m s I hs inc sub yf
  obtain ⟨qs0, rfl⟩ := hs
  refine ⟨qs0, qp, qt, qd, qm, qv, qc, ?_⟩
  rw [← hp, ← ht, ← hd, ← hm, ← hv, ← hcost]
  rfl

lemma vineCuttingSlips_fin (I : Inputs) : ∃ q : ℚ, vineCuttingSlips I = JSNum.fin q := by
  unfold vineCuttingSlips
  by_cases hp : (gen1 I).potatoes_harvested.isPos
  · refine ⟨I.initial_slips * I.crop_survival_rate * I.vine_cuttings_per_plant, ?_⟩
    rw [if_pos hp]
    have hsl : (gen1 I).slips_planted = JSNum.fin I.initial_slips := rfl
    rw [hsl]
    simp [mul_assoc]
  · exact ⟨0, by rw [if_neg hp]⟩

lemma gen1_potatoes_fin (I : Inputs) : ∃ q : ℚ, (gen1 I).potatoes_harvested = JSNum.fin q :=
  calcGeneration_potatoes_fin "Generation 1" I.initial_hectares (lossFactor I)
    (costPerHectareNoSlips I) (maintenanceCostPerHectare I) (JSNum.fin I.initial_slips) I
    ⟨_, rfl⟩ true false 1

lemma gen2SlipsPlanted_fin (I : Inputs) : ∃ q : ℚ, gen2SlipsPlanted I = JSNum.fin q := by
  obtain ⟨qp, hp⟩ := gen1_potatoes_fin I
  unfold gen2SlipsPlanted
  rw [hp]
  exact ⟨_, rfl⟩

lemma gen2_potatoes_fin (I : Inputs) : ∃ q : ℚ, (gen2 I).potatoes_harvested = JSNum.fin q :=
  calcGeneration_potatoes_fin "Generation 2" I.hectares_gen_2 (lossFactor I)
    (costPerHectareNoSlips I) (maintenanceCostPerHectare I) (gen2SlipsPlanted I) I
    (gen2SlipsPlanted_fin I) false false 1

lemma vineCuttingSlips2_fin (I : Inputs) : ∃ q : ℚ, vineCuttingSlips2 I = JSNum.fin q := by
  obtain ⟨qs, hs⟩ := gen2SlipsPlanted_fin I
  unfold vineCuttingSlips2
  by_cases hp : (gen2 I).potatoes_harvested.isPos
  · rw [if_pos hp]
    have hsl : (gen2 I).slips_planted = gen2SlipsPlanted I := rfl
    rw [hsl, hs]
    exact ⟨_, rfl⟩
  · exact ⟨0, by rw [if_neg hp]⟩

lemma gen3SlipsPlanted_fin (I : Inputs) : ∃ q : ℚ, gen3SlipsPlanted I = JSNum.fin q := by
  obtain ⟨qp, hp⟩ := gen2_potatoes_fin I
  unfold gen3SlipsPlanted
  rw [hp]
  exact ⟨_, rfl⟩

lemma gen3_potatoes_fin (I : Inputs) : ∃ q : ℚ, (gen3 I).potatoes_harvested = JSNum.fin q :=
  calcGeneration_potatoes_fin "Generation 3" I.hectares_gen_3 (lossFactor I)
    (costPerHectareNoSlips I) (maintenanceCostPerHectare I) (gen3SlipsPlanted I) I
    (gen3SlipsPlanted_fin I) false false 1

lemma vineCuttingSlips3_fin (I : Inputs) : ∃ q : ℚ, vineCuttingSlips3 I = JSNum.fin q := by
  obtain ⟨qs, hs⟩ := gen3SlipsPlanted_fin I
  unfold vineCuttingSlips3
  by_cases hp : (gen3 I).potatoes_harvested.isPos
  · rw [if_pos hp]
    have hsl : (gen3 I).slips_planted = gen3SlipsPlanted I := rfl
    rw [hsl, hs]
    exact ⟨_, rfl⟩
  · exact ⟨0, by rw [if_neg hp]⟩

lemma gen1_fin (I : Inputs)
    (hc : I.yield_mode = YieldMode.per_hectare ∨ I.grams_per_ton ≠ 0) :
    ∃ qs qp qt qd qm qv qc : ℚ,
      gen1 I =
        { name := "Generation 1", hectares := JSNum.fin I.initial_hectares,
          slips_planted := JSNum.fin qs, potatoes_harvested := JSNum.fin qp,
          tons_harvested := JSNum.fin qt, days_fed := JSNum.fin qd,
          vitamin_a_mcg := JSNum.fin qm, vitamin_a_child_days := JSNum.fin qv,
          cost := JSNum.fin qc } :=
  calcGeneration_record "Generation 1" I.initial_hectares (lossFactor I)
    (costPerHectareNoSlips I) (maintenanceCostPerHectare I) (JSNum.fin I.initial_slips) I
    ⟨_, rfl⟩ true false 1 hc

lemma gen1a_fin (I : Inputs)
    (hc : I.yield_mode = YieldMode.per_hectare ∨ I.grams_per_ton ≠ 0) :
    ∃ qs qp qt qd qm qv qc : ℚ,
      gen1a I =
        { name := "Gen 1a (vine)", hectares := JSNum.fin I.initial_hectares,
          slips_planted := JSNum.fin qs, potatoes_harvested := JSNum.fin qp,
          tons_harvested := JSNum.fin qt, days_fed := JSNum.fin qd,
          vitamin_a_mcg := JSNum.fin qm, vitamin_a_child_days := JSNum.fin qv,
          cost := JSNum.fin qc } :=
  calcGeneration_record "Gen 1a (vine)" I.initial_hectares (lossFactor I)
    (costPerHectareNoSlips I) (maintenanceCostPerHectare I) (vineCuttingSlips I) I
    (vineCuttingSlips_fin I) false true (subGenYields.getD 0 0) hc

lemma gen1b_fin (I : Inputs)
    (hc : I.yield_mode = YieldMode.per_hectare ∨ I.grams_per_ton ≠ 0) :
    ∃ qs qp qt qd qm qv qc : ℚ,
      gen1b I =
        { name := "Gen 1b (vine)", hectares := JSNum.fin I.initial_hectares,
          slips_planted := JSNum.fin qs, potatoes_harvested := JSNum.fin qp,
          tons_harvested := JSNum.fin qt, days_fed := JSNum.fin qd,
          vitamin_a_mcg := JSNum.fin qm, vitamin_a_child_days := JSNum.fin qv,
          cost := JSNum.fin qc } :=
  calcGeneration_record "Gen 1b (vine)" I.initial_hectares (lossFactor I)
    (costPerHectareNoSlips I) (maintenanceCostPerHectare I) (vineCuttingSlips I) I
    (vineCuttingSlips_fin I) false true (subGenYields.getD 1 0) hc

lemma gen1c_fin (I : Inputs)
    (hc : I.yield_mode = YieldMode.per_hectare ∨ I.grams_per_ton ≠ 0) :
    ∃ qs qp qt qd qm qv qc : ℚ,
      gen1c I =
        { name := "Gen 1c (vine)", hectares := JSNum.fin I.initial_hectares,
          slips_planted := JSNum.fin qs, potatoes_harvested := JSNum.fin qp,
          tons_harvested := JSNum.fin qt, days_fed := JSNum.fin qd,
          vitamin_a_mcg := JSNum.fin qm, vitamin_a_child_days := JSNum.fin qv,
          cost := JSNum.fin qc } :=
  calcGeneration_record "Gen 1c (vine)" I.initial_hectares (lossFactor I)
    (costPerHectareNoSlips I) (maintenanceCostPerHectare I) (vineCuttingSlips I) I
    (vineCuttingSlips_fin I) false true (subGenYields.getD 2 0) hc

lemma gen2_fin (I : Inputs)
    (hc : I.yield_mode = YieldMode.per_hectare ∨ I.grams_per_ton ≠ 0) :
    ∃ qs qp qt qd qm qv qc : ℚ,
      gen2 I =
        { name := "Generation 2", hectares := JSNum.fin I.hectares_gen_2,
          slips_planted := JSNum.fin qs, potatoes_harvested := JSNum.fin qp,
          tons_harvested := JSNum.fin qt, days_fed := JSNum.fin qd,
          vitamin_a_mcg := JSNum.fin qm, vitamin_a_child_days := JSNum.fin qv,
          cost := JSNum.fin qc } :=
  calcGeneration_record "Generation 2" I.hectares_gen_2 (lossFactor I)
    (costPerHectareNoSlips I) (maintenanceCostPerHectare I) (gen2SlipsPlanted I) I
    (gen2SlipsPlanted_fin I) false false 1 hc

lemma gen2a_fin (I : Inputs)
    (hc : I.yield_mode = YieldMode.per_hectare ∨ I.grams_per_ton ≠ 0) :
    ∃ qs qp qt qd qm qv qc : ℚ,
      gen2a I =
        { name := "Gen 2a (vine)", hectares := JSNum.fin I.hectares_gen_2,
          slips_planted := JSNum.fin qs, potatoes_harvested := JSNum.fin qp,
          tons_harvested := JSNum.fin qt, days_fed := JSNum.fin qd,
          vitamin_a_mcg := JSNum.fin qm, vitamin_a_child_days := JSNum.fin qv,
          cost := JSNum.fin qc } :=
  calcGeneration_record "Gen 2a (vine)" I.hectares_gen_2 (lossFactor I)
    (costPerHectareNoSlips I) (maintenanceCostPerHectare I) (vineCuttingSlips2 I) I
    (vineCuttingSlips2_fin I) false true (subGenYields.getD 0 0) hc

lemma gen2b_fin (I : Inputs)
    (hc : I.yield_mode = YieldMode.per_hectare ∨ I.grams_per_ton ≠ 0) :
    ∃ qs qp qt qd qm qv qc : ℚ,
      gen2b I =
        { name := "Gen 2b (vine)", hectares := JSNum.fin I.hectares_gen_2,
          slips_planted := JSNum.fin qs, potatoes_harvested := JSNum.fin qp,
          tons_harvested := JSNum.fin qt, days_fed := JSNum.fin qd,
          vitamin_a_mcg := JSNum.fin qm, vitamin_a_child_days := JSNum.fin qv,
          cost := JSNum.fin qc } :=
  calcGeneration_record "Gen 2b (vine)" I.hectares_gen_2 (lossFactor I)
    (costPerHectareNoSlips I) (maintenanceCostPerHectare I) (vineCuttingSlips2 I) I
    (vineCuttingSlips2_fin I) false true (subGenYields.getD 1 0) hc

lemma gen2c_fin (I : Inputs)
    (hc : I.yield_mode = YieldMode.per_hectare ∨ I.grams_per_ton ≠ 0) :
    ∃ qs qp qt qd qm qv qc : ℚ,
      gen2c I =
        { name := "Gen 2c (vine)", hectares := JSNum.fin I.hectares_gen_2,
          slips_planted := JSNum.fin qs, potatoes_harvested := JSNum.fin qp,
          tons_harvested := JSNum.fin qt, days_fed := JSNum.fin qd,
          vitamin_a_mcg := JSNum.fin qm, vitamin_a_child_days := JSNum.fin qv,
          cost := JSNum.fin qc } :=
  calcGeneration_record "Gen 2c (vine)" I.hectares_gen_2 (lossFactor I)
    (costPerHectareNoSlips I) (maintenanceCostPerHectare I) (vineCuttingSlips2 I) I
    (vineCuttingSlips2_fin I) false true (subGenYields.getD 2 0) hc

lemma gen3_fin (I : Inputs)
    (hc : I.yield_mode = YieldMode.per_hectare ∨ I.grams_per_ton ≠ 0) :
    ∃ qs qp qt qd qm qv qc : ℚ,
      gen3 I =
        { name := "Generation 3", hectares := JSNum.fin I.hectares_gen_3,
          slips_planted := JSNum.fin qs, potatoes_harvested := JSNum.fin qp,
          tons_harvested := JSNum.fin qt, days_fed := JSNum.fin qd,
          vitamin_a_mcg := JSNum.fin qm, vitamin_a_child_days := JSNum.fin qv,
          cost := JSNum.fin qc } :=
  calcGeneration_record "Generation 3" I.hectares_gen_3 (lossFactor I)
    (costPerHectareNoSlips I) (maintenanceCostPerHectare I) (gen3SlipsPlanted I) I
    (gen3SlipsPlanted_fin I) false false 1 hc

lemma gen3a_fin (I : Inputs)
    (hc : I.yield_mode = YieldMode.per_hectare ∨ I.grams_per_ton ≠ 0) :
    ∃ qs qp qt qd qm qv qc : ℚ,
      gen3a I =
        { name := "Gen 3a (vine)", hectares := JSNum.fin I.hectares_gen_3,
          slips_planted := JSNum.fin qs, potatoes_harvested := JSNum.fin qp,
          tons_harvested := JSNum.fin qt, days_fed := JSNum.fin qd,
          vitamin_a_mcg := JSNum.fin qm, vitamin_a_child_days := JSNum.fin qv,
          cost := JSNum.fin qc } :=
  calcGeneration_record "Gen 3a (vine)" I.hectares_gen_3 (lossFactor I)
    (costPerHectareNoSlips I) (maintenanceCostPerHectare I) (vineCuttingSlips3 I) I
    (vineCuttingSlips3_fin I) false true (subGenYields.getD 0 0) hc

lemma gen3b_fin (I : Inputs)
    (hc : I.yield_mode = YieldMode.per_hectare ∨ I.grams_per_ton ≠ 0) :
    ∃ qs qp qt qd qm qv qc : ℚ,
      gen3b I =
        { name := "Gen 3b (vine)", hectares := JSNum.fin I.hectares_gen_3,
          slips_planted := JSNum.fin qs, potatoes_harvested := JSNum.fin qp,
          tons_harvested := JSNum.fin qt, days_fed := JSNum.fin qd,
          vitamin_a_mcg := JSNum.fin qm, vitamin_a_child_days := JSNum.fin qv,
          cost := JSNum.fin qc } :=
  calcGeneration_record "Gen 3b (vine)" I.hectares_gen_3 (lossFactor I)
    (costPerHectareNoSlips I) (maintenanceCostPerHectare I) (vineCuttingSlips3 I) I
    (vineCuttingSlips3_fin I) false true (subGenYields.getD 1 0) hc

lemma gen3c_fin (I : Inputs)
    (hc : I.yield_mode = YieldMode.per_hectare ∨ I.grams_per_ton ≠ 0) :
    ∃ qs qp qt qd qm qv qc : ℚ,
      gen3c I =
        { name := "Gen 3c (vine)", hectares := JSNum.fin I.hectares_gen_3,
          slips_planted := JSNum.fin qs, potatoes_harvested := JSNum.fin qp,
          tons_harvested := JSNum.fin qt, days_fed := JSNum.fin qd,
          vitamin_a_mcg := JSNum.fin qm, vitamin_a_child_days := JSNum.fin qv,
          cost := JSNum.fin qc } :=
  calcGeneration_record "Gen 3c (vine)" I.hectares_gen_3 (lossFactor I)
    (costPerHectareNoSlips I) (maintenanceCostPerHectare I) (vineCuttingSlips3 I) I
    (vineCuttingSlips3_fin I) false true (subGenYields.getD 2 0) hc

/-- Every field of every node and every aggregate of a simulation run is a
finite number, provided the engine is in per-hectare mode or the
mass-per-ton parameter is nonzero. -/
lemma simulation_allFinite (I : Inputs)
    (hc : I.yield_mode = YieldMode.per_hectare ∨ I.grams_per_ton ≠ 0) :
    (calculateSimulation I).allFinite = true := by
  obtain ⟨sA, pA, tA, dA, mA, vA, cA, hA⟩ := gen1_fin I hc
  obtain ⟨sB, pB, tB, dB, mB, vB, cB, hB⟩ := gen1a_fin I hc
  obtain ⟨sC, pC, tC, dC, mC, vC, cC, hC⟩ := gen1b_fin I hc
  obtain ⟨sD, pD, tD, dD, mD, vD, cD, hD⟩ := gen1c_fin I hc
  obtain ⟨sE, pE, tE, dE, mE, vE, cE, hE⟩ := gen2_fin I hc
  obtain ⟨sF, pF, tF, dF, mF, vF, cF, hF⟩ := gen2a_fin I hc
  obtain ⟨sG, pG, tG, dG, mG, vG, cG, hG⟩ := gen2b_fin I hc
  obtain ⟨sH, pH, tH, dH, mH, vH, cH, hH⟩ := gen2c_fin I hc
  obtain ⟨sI, pI, tI, dI, mI, vI, cI, hI⟩ := gen3_fin I hc
  obtain ⟨sJ, pJ, tJ, dJ, mJ, vJ, cJ, hJ⟩ := gen3a_fin I hc
  obtain ⟨sK, pK, tK, dK, mK, vK, cK, hK⟩ := gen3b_fin I hc
  obtain ⟨sL, pL, tL, dL, mL, vL, cL, hL⟩ := gen3c_fin I hc
  have hall : (allGens I).all GenerationResult.allFinite = true := by
    simp [allGens, hA, hB, hC, hD, hE, hF, hG, hH, hI, hJ, hK, hL, GenerationResult.allFinite]
  have hdf : totalDaysFed I = JSNum.fin (0 + dA + dB + dC + dD + dE + dF + dG + dH + dI + dJ + dK + dL) := by
    simp only [totalDaysFed, allGens, hA, hB, hC, hD, hE, hF, hG, hH, hI, hJ, hK, hL, List.foldl, JSNum.fin_add_fin]
  have htc : totalCost I = JSNum.fin (0 + cA + cB + cC + cD + cE + cF + cG + cH + cI + cJ + cK + cL) := by
    simp only [totalCost, allGens, hA, hB, hC, hD, hE, hF, hG, hH, hI, hJ, hK, hL, List.foldl, JSNum.fin_add_fin]
  have htt : totalTons I = JSNum.fin (0 + tA + tB + tC + tD + tE + tF + tG + tH + tI + tJ + tK + tL) := by
    simp only [totalTons, allGens, hA, hB, hC, hD, hE, hF, hG, hH, hI, hJ, hK, hL, List.foldl, JSNum.fin_add_fin]
  have htv : totalVitaminAChildDays I = JSNum.fin (0 + vA + vB + vC + vD + vE + vF + vG + vH + vI + vJ + vK + vL) := by
    simp only [totalVitaminAChildDays, allGens, hA, hB, hC, hD, hE, hF, hG, hH, hI, hJ, hK, hL, List.foldl, JSNum.fin_add_fin]
  set qdf : ℚ := 0 + dA + dB + dC + dD + dE + dF + dG + dH + dI + dJ + dK + dL with hqdf
  set qtc : ℚ := 0 + cA + cB + cC + cD + cE + cF + cG + cH + cI + cJ + cK + cL with hqtc
  set qtv : ℚ := 0 + vA + vB + vC + vD + vE + vF + vG + vH + vI + vJ + vK + vL with hqtv
  have htcd : totalChainDays I ≠ 0 := by
    unfold totalChainDays daysPerCycle
    exact mul_ne_zero (by norm_num) (orDefault_ne_zero _ _ (by norm_num))
  have hasf : annualScaleFactor I =
      JSNum.fin (min (365 / totalChainDays I) (cyclesPerYearEff I)) := by
    unfold annualScaleFactor
    rw [JSNum.fin_div_fin _ _ htcd, JSNum.fin_min_fin]
  have hcppfp : ∃ q : ℚ, costPerPersonFullPeriod I = JSNum.fin q := by
    unfold costPerPersonFullPeriod
    rw [htc]
    by_cases hp : 0 < I.people_to_feed
    · exact ⟨qtc / I.people_to_feed, by rw [if_pos hp, JSNum.fin_div_fin _ _ hp.ne']⟩
    · exact ⟨0, by rw [if_neg hp]⟩
  have hcpppd : ∃ q : ℚ, costPerPersonPerDay I = JSNum.fin q := by
    unfold costPerPersonPerDay
    rw [htc, hdf]
    by_cases hp : (JSNum.fin qdf).isPos ∧ 0 < I.people_to_feed
    · have hq : 0 < qdf := by simpa using hp.1
      have hne : qdf * I.people_to_feed ≠ 0 := (mul_pos hq hp.2).ne'
      exact ⟨qtc / (qdf * I.people_to_feed),
        by rw [if_pos hp, JSNum.fin_mul_fin, JSNum.fin_div_fin _ _ hne]⟩
    · exact ⟨0, by rw [if_neg hp]⟩
  have hchild : ∃ q : ℚ, childrenAnnualVaMet I = JSNum.fin q := by
    unfold childrenAnnualVaMet
    rw [htv]
    by_cases hp : (JSNum.fin qtv).isPos
    · exact ⟨((⌊qtv / 365⌋ : ℤ) : ℚ), by rw [if_pos hp,
        JSNum.fin_div_fin _ _ (by norm_num : (365 : ℚ) ≠ 0), JSNum.jfloor_fin]⟩
    · exact ⟨0, by rw [if_neg hp]⟩
  obtain ⟨q1, hcppfp⟩ := hcppfp
  obtain ⟨q2, hcpppd⟩ := hcpppd
  obtain ⟨q3, hchild⟩ := hchild
  simp [SimulationResult.allFinite, calculateSimulation, hall, hdf, htc, htt, htv,
    hasf, hcppfp, hcpppd, hchild]

/-- The total cost of a simulation run is a finite number for every
parameter set: none of the cost formulas involves an unguarded division. -/
lemma totalCost_fin (I : Inputs) : ∃ q : ℚ, totalCost I = JSNum.fin q := by
  obtain ⟨cA, hA⟩ := calcGeneration_cost_fin "Generation 1" I.initial_hectares (lossFactor I)
    (costPerHectareNoSlips I) (maintenanceCostPerHectare I) (JSNum.fin I.initial_slips) I ⟨_, rfl⟩ true false 1
  have hA' : (gen1 I).cost = JSNum.fin cA := hA
  obtain ⟨cB, hB⟩ := calcGeneration_cost_fin "Gen 1a (vine)" I.initial_hectares (lossFactor I)
    (costPerHectareNoSlips I) (maintenanceCostPerHectare I) (vineCuttingSlips I) I (vineCuttingSlips_fin I) false true (subGenYields.getD 0 0)
  have hB' : (gen1a I).cost = JSNum.fin cB := hB
  obtain ⟨cC, hC⟩ := calcGeneration_cost_fin "Gen 1b (vine)" I.initial_hectares (lossFactor I)
    (costPerHectareNoSlips I) (maintenanceCostPerHectare I) (vineCuttingSlips I) I (vineCuttingSlips_fin I) false true (subGenYields.getD 1 0)
  have hC' : (gen1b I).cost = JSNum.fin cC := hC
  obtain ⟨cD, hD⟩ := calcGeneration_cost_fin "Gen 1c (vine)" I.initial_hectares (lossFactor I)
    (costPerHectareNoSlips I) (maintenanceCostPerHectare I) (vineCuttingSlips I) I (vineCuttingSlips_fin I) false true (subGenYields.getD 2 0)
  have hD' : (gen1c I).cost = JSNum.fin cD := hD
  obtain ⟨cE, hE⟩ := calcGeneration_cost_fin "Generation 2" I.hectares_gen_2 (lossFactor I)
    (costPerHectareNoSlips I) (maintenanceCostPerHectare I) (gen2SlipsPlanted I) I (gen2SlipsPlanted_fin I) false false 1
  have hE' : (gen2 I).cost = JSNum.fin cE := hE
  obtain ⟨cF, hF⟩ := calcGeneration_cost_fin "Gen 2a (vine)" I.hectares_gen_2 (lossFactor I)
    (costPerHectareNoSlips I) (maintenanceCostPerHectare I) (vineCuttingSlips2 I) I (vineCuttingSlips2_fin I) false true (subGenYields.getD 0 0)
  have hF' : (gen2a I).cost = JSNum.fin cF := hF
  obtain ⟨cG, hG⟩ := calcGeneration_cost_fin "Gen 2b (vine)" I.hectares_gen_2 (lossFactor I)
    (costPerHectareNoSlips I) (maintenanceCostPerHectare I) (vineCuttingSlips2 I) I (vineCuttingSlips2_fin I) false true (subGenYields.getD 1 0)
  have hG' : (gen2b I).cost = JSNum.fin cG := hG
  obtain ⟨cH, hH⟩ := calcGeneration_cost_fin "Gen 2c (vine)" I.hectares_gen_2 (lossFactor I)
    (costPerHectareNoSlips I) (maintenanceCostPerHectare I) (vineCuttingSlips2 I) I (vineCuttingSlips2_fin I) false true (subGenYields.getD 2 0)
  have hH' : (gen2c I).cost = JSNum.fin cH := hH
  obtain ⟨cI, hI⟩ := calcGeneration_cost_fin "Generation 3" I.hectares_gen_3 (lossFactor I)
    (costPerHectareNoSlips I) (maintenanceCostPerHectare I) (gen3SlipsPlanted I) I (gen3SlipsPlanted_fin I) false false 1
  have hI' : (gen3 I).cost = JSNum.fin cI := hI
  obtain ⟨cJ, hJ⟩ := calcGeneration_cost_fin "Gen 3a (vine)" I.hectares_gen_3 (lossFactor I)
    (costPerHectareNoSlips I) (maintenanceCostPerHectare I) (vineCuttingSlips3 I) I (vineCuttingSlips3_fin I) false true (subGenYields.getD 0 0)
  have hJ' : (gen3a I).cost = JSNum.fin cJ := hJ
  obtain ⟨cK, hK⟩ := calcGeneration_cost_fin "Gen 3b (vine)" I.hectares_gen_3 (lossFactor I)
    (costPerHectareNoSlips I) (maintenanceCostPerHectare I) (vineCuttingSlips3 I) I (vineCuttingSlips3_fin I) false true (subGenYields.getD 1 0)
  have hK' : (gen3b I).cost = JSNum.fin cK := hK
  obtain ⟨cL, hL⟩ := calcGeneration_cost_fin "Gen 3c (vine)" I.hectares_gen_3 (lossFactor I)
    (costPerHectareNoSlips I) (maintenanceCostPerHectare I) (vineCuttingSlips3 I) I (vineCuttingSlips3_fin I) false true (subGenYields.getD 2 0)
  have hL' : (gen3c I).cost = JSNum.fin cL := hL
  refine ⟨0 + cA + cB + cC + cD + cE + cF + cG + cH + cI + cJ + cK + cL, ?_⟩
  simp only [totalCost, allGens, List.foldl, hA', hB', hC', hD', hE', hF', hG', hH', hI', hJ', hK', hL', JSNum.fin_add_fin]

lemma getP_setP (p : ParamId) (v : ℚ) (I : Inputs) : getP p (setP p v I) = v := by
  cases p <;> rfl

lemma setP_getP (p : ParamId) (I : Inputs) : setP p (getP p I) I = I := by
  cases p <;> rfl

lemma fin_sub_self (q : ℚ) : JSNum.fin q - JSNum.fin q = JSNum.fin 0 := by
  simp

lemma isPos_fin_true (a : ℚ) (h : 0 < a) : (JSNum.fin a).isPos = true := by
  simp [JSNum.isPos, h]

lemma isPos_fin_false (a : ℚ) (h : ¬ 0 < a) : (JSNum.fin a).isPos = false := by
  simp [JSNum.isPos, h]

/-- Claim C2: for every valid parameter set, `simulate` returns a node
sequence of exactly 12 GenerationResult nodes in the fixed order Gen1,
Gen1a, Gen1b, Gen1c, Gen2, Gen2a, Gen2b, Gen2c, Gen3, Gen3a, Gen3b,
Gen3c, never fewer. -/
theorem claim_C2 (I : Inputs) :
    (calculateSimulation I).all_gens.length = 12 ∧
    (calculateSimulation I).all_gens.map GenerationResult.name =
      ["Generation 1", "Gen 1a (vine)", "Gen 1b (vine)", "Gen 1c (vine)",
       "Generation 2", "Gen 2a (vine)", "Gen 2b (vine)", "Gen 2c (vine)",
       "Generation 3", "Gen 3a (vine)", "Gen 3b (vine)", "Gen 3c (vine)"] :=
  ⟨rfl, rfl⟩

/-- Claim C4: for every valid parameter set, only the Generation 1 node's
cost includes the planting-unit purchase cost (slips times
cost-per-unit); Generations 2 and 3 pay full preparation cost per hectare
times their own area with no purchase cost, and the nine vine-cutting
sub-nodes pay maintenance-only cost per hectare times the parent's area. -/
theorem claim_C4 (I : Inputs) :
    (calculateSimulation I).all_gens.map GenerationResult.cost =
      [JSNum.fin (costPerHectareNoSlips I * I.initial_hectares +
          I.initial_slips * I.cost_slip_per_unit),
       JSNum.fin (maintenanceCostPerHectare I * I.initial_hectares),
       JSNum.fin (maintenanceCostPerHectare I * I.initial_hectares),
       JSNum.fin (maintenanceCostPerHectare I * I.initial_hectares),
       JSNum.fin (costPerHectareNoSlips I * I.hectares_gen_2),
       JSNum.fin (maintenanceCostPerHectare I * I.hectares_gen_2),
       JSNum.fin (maintenanceCostPerHectare I * I.hectares_gen_2),
       JSNum.fin (maintenanceCostPerHectare I * I.hectares_gen_2),
       JSNum.fin (costPerHectareNoSlips I * I.hectares_gen_3),
       JSNum.fin (maintenanceCostPerHectare I * I.hectares_gen_3),
       JSNum.fin (maintenanceCostPerHectare I * I.hectares_gen_3),
       JSNum.fin (maintenanceCostPerHectare I * I.hectares_gen_3)] := by
  simp [calculateSimulation, allGens, gen1, gen1a, gen1b, gen1c, gen2, gen2a, gen2b,
    gen2c, gen3, gen3a, gen3b, gen3c, calcGeneration]

/-- Claim C7: with initial land area 34.3 ha, 1,200,000 initial planting
units, 10 tons per hectare, harvest-efficiency 0.90 and per-hectare mode,
the Generation 1 node's harvested mass returned by `simulate` is exactly
308.7 tons. -/
theorem claim_C7 (I : Inputs) (h1 : I.initial_hectares = 34.3)
    (h2 : I.initial_slips = 1200000) (h3 : I.tons_per_hectare = 10)
    (h4 : I.tons_harvest_percent = 0.9) (h5 : I.yield_mode = YieldMode.per_hectare) :
    ((calculateSimulation I).all_gens.map GenerationResult.tons_harvested).getD 0
      (JSNum.fin 0) = JSNum.fin 308.7 := by
  simp [calculateSimulation, allGens, gen1, calcGeneration, h1, h3, h4, h5, orDefault]
  norm_num

/-- Witness for claim C7 at the concrete Scenario A parameter set. -/
theorem claim_C7_witness :
    ((calculateSimulation wC7inputs).all_gens.map GenerationResult.tons_harvested).getD 0
      (JSNum.fin 0) = JSNum.fin 308.7 :=
  claim_C7 wC7inputs rfl rfl rfl rfl rfl

/-- Claim C9: for every parameter set and every parameter identifier that
does not name a numeric property of the set (including the empty string),
`analyze` returns the empty no-op result, not an error and no rows. -/
theorem claim_C9 (I : Inputs) (id : String) (h : findParamId id = none) :
    runSensitivityAnalysis id I = none := by
  unfold runSensitivityAnalysis
  rw [h]

/-- Witness for claim C9: the empty identifier is absent, and `analyze`
returns the empty result on it. -/
theorem claim_C9_witness :
    findParamId "" = none ∧ runSensitivityAnalysis "" simpleParams = none :=
  ⟨rfl, claim_C9 simpleParams "" rfl⟩

/-- Claim C10 (implicit in the code): whenever a main generation's
harvested tuber count is not strictly positive, all three of its
vine-cutting sub-nodes receive a planting-unit count of exactly 0,
regardless of the values of the parent's planted slips, the crop survival
rate and the vine-cuttings-per-plant parameter. -/
theorem claim_C10 (I : Inputs) :
    ((gen1 I).potatoes_harvested.isPos = false →
      (gen1a I).slips_planted = JSNum.fin 0 ∧ (gen1b I).slips_planted = JSNum.fin 0 ∧
        (gen1c I).slips_planted = JSNum.fin 0) ∧
    ((gen2 I).potatoes_harvested.isPos = false →
      (gen2a I).slips_planted = JSNum.fin 0 ∧ (gen2b I).slips_planted = JSNum.fin 0 ∧
        (gen2c I).slips_planted = JSNum.fin 0) ∧
    ((gen3 I).potatoes_harvested.isPos = false →
      (gen3a I).slips_planted = JSNum.fin 0 ∧ (gen3b I).slips_planted = JSNum.fin 0 ∧
        (gen3c I).slips_planted = JSNum.fin 0) := by
  refine ⟨fun h => ?_, fun h => ?_, fun h => ?_⟩
  · have hv : vineCuttingSlips I = JSNum.fin 0 := by
      unfold vineCuttingSlips
      simp [h]
    exact ⟨hv, hv, hv⟩
  · have hv : vineCuttingSlips2 I = JSNum.fin 0 := by
      unfold vineCuttingSlips2
      simp [h]
    exact ⟨hv, hv, hv⟩
  · have hv : vineCuttingSlips3 I = JSNum.fin 0 := by
      unfold vineCuttingSlips3
      simp [h]
    exact ⟨hv, hv, hv⟩

/-- Witness for claim C10: per-hectare mode with tons-per-hectare 0 gives
Generation 1 a zero harvest, and all three of its sub-nodes get 0 slips
even though the parent planted 100 slips, the crop survival rate is 1 and
vine-cuttings-per-plant is 3. -/
theorem claim_C10_witness :
    (gen1 wC10inputs).potatoes_harvested.isPos = false ∧
    wC10inputs.initial_slips = 100 ∧ wC10inputs.crop_survival_rate = 1 ∧
    wC10inputs.vine_cuttings_per_plant = 3 ∧
    (gen1a wC10inputs).slips_planted = JSNum.fin 0 ∧
    (gen1b wC10inputs).slips_planted = JSNum.fin 0 ∧
    (gen1c wC10inputs).slips_planted = JSNum.fin 0 := by
  have hp : (gen1 wC10inputs).potatoes_harvested.isPos = false := by
    norm_num [gen1, calcGeneration, wC10inputs, simpleParams, orDefault,
      JSNum.fin_div_fin_eq, JSNum.isPos]
  obtain ⟨ha, hb, hc⟩ := (claim_C10 wC10inputs).1 hp
  exact ⟨hp, rfl, rfl, rfl, ha, hb, hc⟩

lemma per_plant_ne_per_hectare :
    (YieldMode.per_plant = YieldMode.per_hectare) = False := by
  simp

/-- Counterexample for claim C3: in per-plant mode the yield fraction is
not applied.  Gen 1a and Gen 1b share identical inputs, so if the
fractions 0.40 and 0.25 were applied multiplicatively to the same base
harvest, then 0.25 times Gen 1a's mass would equal 0.40 times Gen 1b's
mass; at this concrete per-plant input both masses are 60 tons and the
relation fails. -/
theorem claim_C3_counterexample :
    (gen1a cexC3inputs).tons_harvested = JSNum.fin 60 ∧
    (gen1b cexC3inputs).tons_harvested = JSNum.fin 60 ∧
    JSNum.fin 0.25 * (gen1a cexC3inputs).tons_harvested ≠
      JSNum.fin 0.40 * (gen1b cexC3inputs).tons_harvested := by
  have ha : (gen1a cexC3inputs).tons_harvested = JSNum.fin 60 := by
    norm_num [gen1a, gen1, vineCuttingSlips, lossFactor, calcGeneration, cexC3inputs,
      simpleParams, orDefault, JSNum.fin_div_fin_eq, JSNum.isPos, subGenYields,
      per_plant_ne_per_hectare]
  have hb : (gen1b cexC3inputs).tons_harvested = JSNum.fin 60 := by
    norm_num [gen1b, gen1, vineCuttingSlips, lossFactor, calcGeneration, cexC3inputs,
      simpleParams, orDefault, JSNum.fin_div_fin_eq, JSNum.isPos, subGenYields,
      per_plant_ne_per_hectare]
  refine ⟨ha, hb, ?_⟩
  rw [ha, hb]
  simp
  norm_num

/-- Amended claim C3: in per-hectare yield mode, the vine-cutting siblings
a/b/c of every main generation have harvested mass exactly 0.40, 0.25 and
0.15 times the parent main generation's harvested mass (whose own yield
fraction is 1.0), independent of all other parameters.  In per-plant mode
the yield fraction is ignored by the engine. -/
theorem claim_C3_amended (I : Inputs) (h : I.yield_mode = YieldMode.per_hectare) :
    (gen1 I).tons_harvested =
      JSNum.fin (I.initial_hectares * I.tons_per_hectare * I.tons_harvest_percent * 1) ∧
    (gen1a I).tons_harvested = JSNum.fin 0.40 * (gen1 I).tons_harvested ∧
    (gen1b I).tons_harvested = JSNum.fin 0.25 * (gen1 I).tons_harvested ∧
    (gen1c I).tons_harvested = JSNum.fin 0.15 * (gen1 I).tons_harvested ∧
    (gen2 I).tons_harvested =
      JSNum.fin (I.hectares_gen_2 * I.tons_per_hectare * I.tons_harvest_percent * 1) ∧
    (gen2a I).tons_harvested = JSNum.fin 0.40 * (gen2 I).tons_harvested ∧
    (gen2b I).tons_harvested = JSNum.fin 0.25 * (gen2 I).tons_harvested ∧
    (gen2c I).tons_harvested = JSNum.fin 0.15 * (gen2 I).tons_harvested ∧
    (gen3 I).tons_harvested =
      JSNum.fin (I.hectares_gen_3 * I.tons_per_hectare * I.tons_harvest_percent * 1) ∧
    (gen3a I).tons_harvested = JSNum.fin 0.40 * (gen3 I).tons_harvested ∧
    (gen3b I).tons_harvested = JSNum.fin 0.25 * (gen3 I).tons_harvested ∧
    (gen3c I).tons_harvested = JSNum.fin 0.15 * (gen3 I).tons_harvested := by
  refine ⟨?_, ?_, ?_, ?_, ?_, ?_, ?_, ?_, ?_, ?_, ?_, ?_⟩ <;>
    · norm_num [gen1, gen1a, gen1b, gen1c, gen2, gen2a, gen2b, gen2c, gen3, gen3a,
        gen3b, gen3c, calcGeneration, h, orDefault, subGenYields]
      try ring

/-- Witness for the amended claim C3 at a concrete per-hectare input. -/
theorem claim_C3_witness :
    (gen1a simpleParams).tons_harvested =
      JSNum.fin 0.40 * (gen1 simpleParams).tons_harvested :=
  (claim_C3_amended simpleParams rfl).2.1

/-- Counterexample for claim C5: with tons-per-hectare 0 in per-hectare
mode, Generation 1 harvests nothing, so the sub-nodes' planting-unit count
is 0 although the claimed formula (parent slips times crop survival times
cuttings-per-plant) gives 300. -/
theorem claim_C5_counterexample :
    (gen1a cexC5inputs).slips_planted = JSNum.fin 0 ∧
    (gen1 cexC5inputs).slips_planted * JSNum.fin cexC5inputs.crop_survival_rate *
      JSNum.fin cexC5inputs.vine_cuttings_per_plant = JSNum.fin 300 ∧
    (JSNum.fin 0 : JSNum) ≠ JSNum.fin 300 := by
  refine ⟨?_, ?_, by simp⟩
  · show vineCuttingSlips cexC5inputs = JSNum.fin 0
    have hp : (gen1 cexC5inputs).potatoes_harvested.isPos = false := by
      norm_num [gen1, calcGeneration, cexC5inputs, simpleParams, orDefault,
        JSNum.fin_div_fin_eq, JSNum.isPos]
    unfold vineCuttingSlips
    simp [hp]
  · show JSNum.fin cexC5inputs.initial_slips * _ * _ = _
    norm_num [cexC5inputs, simpleParams]

/-- Amended claim C5: whenever the parent main generation's harvested
tuber count is strictly positive, each of its three vine-cutting sub-nodes
receives a planting-unit count equal to the parent's established
planting-unit count times the crop survival rate times the
vine-cuttings-per-plant parameter, all three siblings sharing this one
value; when the parent harvests nothing the count is 0 instead. -/
theorem claim_C5_amended (I : Inputs) :
    ((gen1 I).potatoes_harvested.isPos = true →
      (gen1a I).slips_planted =
        (gen1 I).slips_planted * JSNum.fin I.crop_survival_rate *
          JSNum.fin I.vine_cuttings_per_plant ∧
      (gen1b I).slips_planted = (gen1a I).slips_planted ∧
      (gen1c I).slips_planted = (gen1a I).slips_planted) ∧
    ((gen2 I).potatoes_harvested.isPos = true →
      (gen2a I).slips_planted =
        (gen2 I).slips_planted * JSNum.fin I.crop_survival_rate *
          JSNum.fin I.vine_cuttings_per_plant ∧
      (gen2b I).slips_planted = (gen2a I).slips_planted ∧
      (gen2c I).slips_planted = (gen2a I).slips_planted) ∧
    ((gen3 I).potatoes_harvested.isPos = true →
      (gen3a I).slips_planted =
        (gen3 I).slips_planted * JSNum.fin I.crop_survival_rate *
          JSNum.fin I.vine_cuttings_per_plant ∧
      (gen3b I).slips_planted = (gen3a I).slips_planted ∧
      (gen3c I).slips_planted = (gen3a I).slips_planted) := by
  refine ⟨fun h => ?_, fun h => ?_, fun h => ?_⟩
  · have hv : vineCuttingSlips I =
        (gen1 I).slips_planted * JSNum.fin I.crop_survival_rate *
          JSNum.fin I.vine_cuttings_per_plant := by
      unfold vineCuttingSlips
      rw [if_pos h]
    exact ⟨hv, rfl, rfl⟩
  · have hv : vineCuttingSlips2 I =
        (gen2 I).slips_planted * JSNum.fin I.crop_survival_rate *
          JSNum.fin I.vine_cuttings_per_plant := by
      unfold vineCuttingSlips2
      rw [if_pos h]
    exact ⟨hv, rfl, rfl⟩
  · have hv : vineCuttingSlips3 I =
        (gen3 I).slips_planted * JSNum.fin I.crop_survival_rate *
          JSNum.fin I.vine_cuttings_per_plant := by
      unfold vineCuttingSlips3
      rw [if_pos h]
    exact ⟨hv, rfl, rfl⟩

/-- Witness for the amended claim C5: at a concrete all-positive input
Generation 1 harvests a positive tuber count and its sub-nodes get the
formula value. -/
theorem claim_C5_witness :
    (gen1 simpleParams).potatoes_harvested.isPos = true ∧
    (gen1a simpleParams).slips_planted =
      (gen1 simpleParams).slips_planted * JSNum.fin simpleParams.crop_survival_rate *
        JSNum.fin simpleParams.vine_cuttings_per_plant := by
  have hp : (gen1 simpleParams).potatoes_harvested.isPos = true := by
    norm_num [gen1, calcGeneration, simpleParams, orDefault,
      JSNum.fin_div_fin_eq, JSNum.isPos]
  exact ⟨hp, ((claim_C5_amended simpleParams).1 hp).1⟩

/-- Counterexample for claim C6: with cycles-per-year 0 (and 120 days to
harvest), the engine substitutes the default 1 cycle per year and returns
an annual scale factor of 1, which exceeds the cycles-per-year parameter
value 0. -/
theorem claim_C6_counterexample :
    (calculateSimulation cexC6inputs).annual_scale_factor = JSNum.fin 1 ∧
    cexC6inputs.cycles_per_year = 0 ∧ ¬ ((1 : ℚ) ≤ 0) := by
  refine ⟨?_, rfl, by norm_num⟩
  show annualScaleFactor cexC6inputs = JSNum.fin 1
  unfold annualScaleFactor totalChainDays daysPerCycle cyclesPerYearEff
  norm_num [cexC6inputs, simpleParams, orDefault, JSNum.fin_div_fin_eq]

/-- Amended claim C6: provided both time parameters are nonzero (so the
JavaScript `||`-defaulting is inert), the annual scale factor equals
min(365 divided by (3 times days-to-harvest), cycles-per-year), and hence
never exceeds the cycles-per-year parameter nor 365 divided by
(3 times days-to-harvest); a zero parameter is replaced by its default
(120 days, 1 cycle) before this formula is applied. -/
theorem claim_C6_amended (I : Inputs) (h1 : I.cycles_per_year ≠ 0)
    (h2 : I.days_to_harvest ≠ 0) :
    (calculateSimulation I).annual_scale_factor =
      JSNum.fin (min (365 / (3 * I.days_to_harvest)) I.cycles_per_year) ∧
    min (365 / (3 * I.days_to_harvest)) I.cycles_per_year ≤ I.cycles_per_year ∧
    min (365 / (3 * I.days_to_harvest)) I.cycles_per_year ≤
      365 / (3 * I.days_to_harvest) := by
  refine ⟨?_, min_le_right _ _, min_le_left _ _⟩
  show annualScaleFactor I = _
  unfold annualScaleFactor totalChainDays daysPerCycle cyclesPerYearEff
  rw [orDefault_of_ne _ _ h2, orDefault_of_ne _ _ h1,
    JSNum.fin_div_fin _ _ (mul_ne_zero (by norm_num) h2), JSNum.fin_min_fin]

/-- Witness for the amended claim C6 at 120 days to harvest and 2 cycles
per year. -/
theorem claim_C6_witness :
    (calculateSimulation simpleParams).annual_scale_factor =
      JSNum.fin (min (365 / (3 * simpleParams.days_to_harvest))
        simpleParams.cycles_per_year) :=
  (claim_C6_amended simpleParams (by norm_num [simpleParams])
    (by norm_num [simpleParams])).1

lemma inf_mul_fin (b : ℚ) :
    JSNum.inf * JSNum.fin b =
      if 0 < b then JSNum.inf else if b < 0 then JSNum.ninf else JSNum.nan := rfl

lemma add_nan (x : JSNum) : x + JSNum.nan = JSNum.nan := by
  show JSNum.add x JSNum.nan = JSNum.nan
  cases x <;> rfl

lemma nan_div (x : JSNum) : JSNum.nan / x = JSNum.nan := by
  show JSNum.div JSNum.nan x = JSNum.nan
  cases x <;> rfl

lemma nan_sub (x : JSNum) : JSNum.nan - x = JSNum.nan := by
  show JSNum.add JSNum.nan (JSNum.neg x) = JSNum.nan
  cases x <;> rfl

lemma notFinite_mul_fin_zero (x : JSNum) (hx : x.isFinite = false) :
    x * JSNum.fin 0 = JSNum.nan := by
  cases x with
  | fin q => simp [JSNum.isFinite] at hx
  | nan => rfl
  | inf =>
    show JSNum.mul JSNum.inf (JSNum.fin 0) = JSNum.nan
    simp [JSNum.mul]
  | ninf =>
    show JSNum.mul JSNum.ninf (JSNum.fin 0) = JSNum.nan
    simp [JSNum.mul]

/-- Counterexample for claim C1: in per-plant mode with mass-per-ton 0,
the division in the per-plant mass conversion is unguarded (app.js line
218), and Generation 1's harvested mass is +Infinity, not 0. -/
theorem claim_C1_counterexample :
    (gen1 cexC1inputs).tons_harvested = JSNum.inf ∧
    JSNum.inf ≠ JSNum.fin 0 := by
  refine ⟨?_, by simp⟩
  norm_num [gen1, calcGeneration, lossFactor, cexC1inputs, simpleParams, orDefault,
    per_plant_ne_per_hectare, JSNum.fin_div_fin_eq, inf_mul_fin]

/-- Amended claim C1: the engine produces only finite outputs (degrading
degenerate inputs to zeros) in per-hectare mode and, in per-plant mode,
whenever mass-per-ton is nonzero; the one unguarded division is the
per-plant mass conversion, where a zero mass-per-ton makes Generation 1's
harvested mass non-finite (NaN or a signed infinity) instead of 0. -/
theorem claim_C1_amended (I : Inputs) :
    ((I.yield_mode = YieldMode.per_hectare ∨ I.grams_per_ton ≠ 0) →
      (calculateSimulation I).allFinite = true) ∧
    (I.yield_mode = YieldMode.per_plant → I.grams_per_ton = 0 →
      (gen1 I).tons_harvested.isFinite = false) := by
  refine ⟨fun hc => simulation_allFinite I hc, fun hm hg => ?_⟩
  have ht : (gen1 I).tons_harvested =
      (JSNum.fin (I.initial_slips * I.potatoes_per_plant * lossFactor I *
        I.grams_per_potato) / JSNum.fin 0) * JSNum.fin I.tons_harvest_percent := by
    simp [gen1, calcGeneration, hm, hg, per_plant_ne_per_hectare]
  rw [ht]
  exact JSNum.divZero_mul_fin_not_finite _ _

/-- Witness for the amended claim C1: a concrete per-hectare run is
all-finite, and a concrete per-plant run with mass-per-ton 0 has a
non-finite Generation 1 harvested mass. -/
theorem claim_C1_witness :
    (calculateSimulation simpleParams).allFinite = true ∧
    (gen1 wC1inputs).tons_harvested.isFinite = false :=
  ⟨(claim_C1_amended simpleParams).1 (Or.inl rfl),
   (claim_C1_amended wC1inputs).2 rfl rfl⟩

/-- In per-plant mode with mass-per-ton 0 and a positive daily calorie
need, a node's days-fed value is NaN (the non-finite harvested mass is
multiplied by the zero calories-per-ton and divided by the need). -/
lemma calcGeneration_days_nan (n : String) (h lf c m : ℚ) (s : JSNum) (I : Inputs)
    (hs : ∃ qs : ℚ, s = JSNum.fin qs) (inc sub : Bool) (yf : ℚ)
    (hm : I.yield_mode = YieldMode.per_plant) (hg : I.grams_per_ton = 0)
    (hcn : 0 < I.people_to_feed * I.calorie_target_per_person) :
    (calcGeneration n (JSNum.fin h) s I (JSNum.fin lf) (JSNum.fin c)
      (JSNum.fin m) inc sub yf).days_fed = JSNum.nan := by
  obtain ⟨qs, rfl⟩ := hs
  have ht : (calcGeneration n (JSNum.fin h) (JSNum.fin qs) I (JSNum.fin lf) (JSNum.fin c)
      (JSNum.fin m) inc sub yf).tons_harvested =
      (JSNum.fin (qs * I.potatoes_per_plant * lf * I.grams_per_potato) / JSNum.fin 0) *
        JSNum.fin I.tons_harvest_percent := by
    simp [calcGeneration, hm, hg, per_plant_ne_per_hectare]
  simp only [calcGeneration] at ht ⊢
  rw [ht, if_pos hcn]
  rw [show (if 0 < I.grams_per_ton ∧ 0 < I.grams_per_potato then
      JSNum.fin ((I.grams_per_ton / I.grams_per_potato) *
        I.calories_per_potato_with_leaves) else JSNum.fin 0) = JSNum.fin 0 by
    rw [if_neg]
    rw [hg]
    simp]
  rw [notFinite_mul_fin_zero _ (JSNum.divZero_mul_fin_not_finite _ _), nan_div]

/-- In per-plant mode with mass-per-ton 0 and a positive daily calorie
need, the total days fed is NaN. -/
lemma totalDaysFed_nan (I : Inputs) (hm : I.yield_mode = YieldMode.per_plant)
    (hg : I.grams_per_ton = 0)
    (hcn : 0 < I.people_to_feed * I.calorie_target_per_person) :
    totalDaysFed I = JSNum.nan := by
  have d1 : (gen1 I).days_fed = JSNum.nan :=
    calcGeneration_days_nan "Generation 1" I.initial_hectares (lossFactor I)
      (costPerHectareNoSlips I) (maintenanceCostPerHectare I) (JSNum.fin I.initial_slips) I
      ⟨_, rfl⟩ true false 1 hm hg hcn
  have d2 : (gen1a I).days_fed = JSNum.nan :=
    calcGeneration_days_nan "Gen 1a (vine)" I.initial_hectares (lossFactor I)
      (costPerHectareNoSlips I) (maintenanceCostPerHectare I) (vineCuttingSlips I) I
      (vineCuttingSlips_fin I) false true (subGenYields.getD 0 0) hm hg hcn
  have d3 : (gen1b I).days_fed = JSNum.nan :=
    calcGeneration_days_nan "Gen 1b (vine)" I.initial_hectares (lossFactor I)
      (costPerHectareNoSlips I) (maintenanceCostPerHectare I) (vineCuttingSlips I) I
      (vineCuttingSlips_fin I) false true (subGenYields.getD 1 0) hm hg hcn
  have d4 : (gen1c I).days_fed = JSNum.nan :=
    calcGeneration_days_nan "Gen 1c (vine)" I.initial_hectares (lossFactor I)
      (costPerHectareNoSlips I) (maintenanceCostPerHectare I) (vineCuttingSlips I) I
      (vineCuttingSlips_fin I) false true (subGenYields.getD 2 0) hm hg hcn
  have d5 : (gen2 I).days_fed = JSNum.nan :=
    calcGeneration_days_nan "Generation 2" I.hectares_gen_2 (lossFactor I)
      (costPerHectareNoSlips I) (maintenanceCostPerHectare I) (gen2SlipsPlanted I) I
      (gen2SlipsPlanted_fin I) false false 1 hm hg hcn
  have d6 : (gen2a I).days_fed = JSNum.nan :=
    calcGeneration_days_nan "Gen 2a (vine)" I.hectares_gen_2 (lossFactor I)
      (costPerHectareNoSlips I) (maintenanceCostPerHectare I) (vineCuttingSlips2 I) I
      (vineCuttingSlips2_fin I) false true (subGenYields.getD 0 0) hm hg hcn
  have d7 : (gen2b I).days_fed = JSNum.nan :=
    calcGeneration_days_nan "Gen 2b (vine)" I.hectares_gen_2 (lossFactor I)
      (costPerHectareNoSlips I) (maintenanceCostPerHectare I) (vineCuttingSlips2 I) I
      (vineCuttingSlips2_fin I) false true (subGenYields.getD 1 0) hm hg hcn
  have d8 : (gen2c I).days_fed = JSNum.nan :=
    calcGeneration_days_nan "Gen 2c (vine)" I.hectares_gen_2 (lossFactor I)
      (costPerHectareNoSlips I) (maintenanceCostPerHectare I) (vineCuttingSlips2 I) I
      (vineCuttingSlips2_fin I) false true (subGenYields.getD 2 0) hm hg hcn
  have d9 : (gen3 I).days_fed = JSNum.nan :=
    calcGeneration_days_nan "Generation 3" I.hectares_gen_3 (lossFactor I)
      (costPerHectareNoSlips I) (maintenanceCostPerHectare I) (gen3SlipsPlanted I) I
      (gen3SlipsPlanted_fin I) false false 1 hm hg hcn
  have d10 : (gen3a I).days_fed = JSNum.nan :=
    calcGeneration_days_nan "Gen 3a (vine)" I.hectares_gen_3 (lossFactor I)
      (costPerHectareNoSlips I) (maintenanceCostPerHectare I) (vineCuttingSlips3 I) I
      (vineCuttingSlips3_fin I) false true (subGenYields.getD 0 0) hm hg hcn
  have d11 : (gen3b I).days_fed = JSNum.nan :=
    calcGeneration_days_nan "Gen 3b (vine)" I.hectares_gen_3 (lossFactor I)
      (costPerHectareNoSlips I) (maintenanceCostPerHectare I) (vineCuttingSlips3 I) I
      (vineCuttingSlips3_fin I) false true (subGenYields.getD 1 0) hm hg hcn
  have d12 : (gen3c I).days_fed = JSNum.nan :=
    calcGeneration_days_nan "Gen 3c (vine)" I.hectares_gen_3 (lossFactor I)
      (costPerHectareNoSlips I) (maintenanceCostPerHectare I) (vineCuttingSlips3 I) I
      (vineCuttingSlips3_fin I) false true (subGenYields.getD 2 0) hm hg hcn
  simp only [totalDaysFed, allGens, List.foldl, d1, d2, d3, d4, d5, d6, d7, d8, d9,
    d10, d11, d12, add_nan]

/-- Amended claim C8: for every parameter set containing the chosen
parameter identifier, `analyze` returns exactly 5 rows with scaling
factors 0.75, 0.90, 1.00, 1.10, 1.25 in that order; each row records the
scaled input value and the total-days-fed and total-cost obtained by
re-running the (deterministic) engine on a copy of the parameters with
only that one parameter scaled; the factor-1.00 row's cost delta versus
the baseline is exactly zero, and its days-fed delta is exactly zero
whenever the baseline total-days-fed is a finite number (with non-finite
totals the delta is NaN minus NaN, which is NaN, not zero). -/
theorem claim_C8_amended (I : Inputs) (id : String) (p : ParamId)
    (h : findParamId id = some p) :
    ∃ rows : List SensitivityRow,
      runSensitivityAnalysis id I = some rows ∧
      rows.length = 5 ∧
      rows.map SensitivityRow.factor = [0.75, 0.90, 1.00, 1.10, 1.25] ∧
      (∀ r ∈ rows,
        r.inputValue = getP p I * r.factor ∧
        r.total_days_fed =
          (calculateSimulation (setP p (getP p I * r.factor) I)).total_days_fed ∧
        r.total_cost =
          (calculateSimulation (setP p (getP p I * r.factor) I)).total_cost ∧
        r.daysDelta = r.total_days_fed - (calculateSimulation I).total_days_fed ∧
        r.costDelta = r.total_cost - (calculateSimulation I).total_cost) ∧
      (rows.getD 2 noRow).factor = 1.00 ∧
      (rows.getD 2 noRow).costDelta = JSNum.fin 0 ∧
      ((calculateSimulation I).total_days_fed.isFinite = true →
        (rows.getD 2 noRow).daysDelta = JSNum.fin 0) := by
  have h0 : runSensitivityAnalysis id I = some (sensitivitySteps.map (fun factor =>
      let modifiedInputs := setP p (getP p I * factor) I
      let results := calculateSimulation modifiedInputs
      { factor := factor
        inputValue := getP p modifiedInputs
        total_days_fed := results.total_days_fed
        total_cost := results.total_cost
        daysDelta := results.total_days_fed - (calculateSimulation I).total_days_fed
        costDelta := results.total_cost - (calculateSimulation I).total_cost })) := by
    unfold runSensitivityAnalysis
    rw [h]
  have hone : getP p I * 1.00 = getP p I := by norm_num
  refine ⟨_, h0,rfl, rfl, ?_, rfl, ?_, ?_⟩
  · intro r hr
    obtain ⟨a, ha, rfl⟩ := List.mem_map.1 hr
    refine ⟨?_, rfl, rfl, rfl, rfl⟩
    show getP p (setP p (getP p I * a) I) = getP p I * a
    rw [getP_setP]
  · show (calculateSimulation (setP p (getP p I * 1.00) I)).total_cost -
      (calculateSimulation I).total_cost = JSNum.fin 0
    rw [hone, setP_getP]
    obtain ⟨qc, hq⟩ := totalCost_fin I
    have hq' : (calculateSimulation I).total_cost = JSNum.fin qc := hq
    rw [hq']
    exact fin_sub_self qc
  · intro hf
    obtain ⟨q, hq⟩ := (JSNum.isFinite_iff _).1 hf
    show (calculateSimulation (setP p (getP p I * 1.00) I)).total_days_fed -
      (calculateSimulation I).total_days_fed = JSNum.fin 0
    rw [hone, setP_getP, hq]
    exact fin_sub_self q

/-- Witness for the amended claim C8: on a concrete parameter set,
varying the initial-slips parameter yields a row table. -/
theorem claim_C8_witness :
    (runSensitivityAnalysis "initial_slips" simpleParams).isSome = true := by
  obtain ⟨rows, hr, -⟩ :=
    claim_C8_amended simpleParams "initial_slips" ParamId.initial_slips rfl
  rw [hr]
  rfl

/-- Counterexample for claim C8: on the per-plant parameter set with
mass-per-ton 0 (whose total-days-fed is NaN), the factor-1.00 row of the
sensitivity table has a days-fed delta of NaN, not zero. -/
theorem claim_C8_counterexample :
    (((runSensitivityAnalysis "initial_slips" cexC8inputs).getD []).getD 2
      noRow).factor = 1.00 ∧
    (((runSensitivityAnalysis "initial_slips" cexC8inputs).getD []).getD 2
      noRow).daysDelta = JSNum.nan ∧
    JSNum.nan ≠ JSNum.fin 0 := by
  have hbase : totalDaysFed cexC8inputs = JSNum.nan :=
    totalDaysFed_nan cexC8inputs rfl rfl (by norm_num [cexC8inputs, simpleParams])
  have hmod : totalDaysFed (setP ParamId.initial_slips
      (getP ParamId.initial_slips cexC8inputs * 1.00) cexC8inputs) = JSNum.nan :=
    totalDaysFed_nan _ rfl rfl (by norm_num [setP, cexC8inputs, simpleParams])
  refine ⟨rfl, ?_, by simp⟩
  show (calculateSimulation (setP ParamId.initial_slips
      (getP ParamId.initial_slips cexC8inputs * 1.00) cexC8inputs)).total_days_fed -
    (calculateSimulation cexC8inputs).total_days_fed = JSNum.nan
  have h1 : (calculateSimulation cexC8inputs).total_days_fed = JSNum.nan := hbase
  have h2 : (calculateSimulation (setP ParamId.initial_slips
      (getP ParamId.initial_slips cexC8inputs * 1.00) cexC8inputs)).total_days_fed =
      JSNum.nan := hmod
  rw [h1, h2, nan_sub]
